import Mathlib

/-!
# Verification of the souzu MQTT merge / fan-out / job-tracking core

A shallow embedding, in Lean, of the core of the souzu printer monitor:

* `souzu/bambu/mqtt.py` — JSON patch merging (`_custom_list_merge`, the
  `deepmerge` `Merger` configuration), the ingest rounding converter
  (`_round_int`), the structural decoder (`cattrs` `structure` /
  `unstructure` for `BambuStatusReport` and friends), the in-memory
  snapshot cache, and the per-subscriber queue fan-out
  (`BambuMqttConnection.subscribe` / `_consume_messages`).
* `souzu/job_tracking.py` — the per-device print-job state machine
  (`monitor_printer_status` and the `_job_*` transition handlers).

JSON values are modelled by the inductive `J`; Python `dict`s become
ordered association lists (insertion order preserved, first occurrence of
a key is the binding, as in CPython).  Machine floats on the wire are
modelled as rationals (every JSON literal is an exact decimal), datetimes
as integer ticks, and `asyncio` interleaving as explicit event traces.
Human-readable text rendering (`strftime`, f-strings) is abstracted to
`toString` of the underlying data where its exact shape is not observable
by any property proved here.
-/

set_option autoImplicit false

namespace Souzu

/-- A JSON value, as produced by `json.loads`: objects keep key order,
numbers are exact rationals. -/
inductive J where
  | null
  | bool (b : Bool)
  | num (q : ℚ)
  | str (s : String)
  | arr (xs : List J)
  | obj (fields : List (String × J))
  deriving Repr, Inhabited

mutual

def decEqJ : (a b : J) → Decidable (a = b)
  | .null, .null => .isTrue rfl
  | .bool x, .bool y =>
      if h : x = y then .isTrue (by rw [h]) else .isFalse (fun hh => h (by injection hh))
  | .num x, .num y =>
      if h : x = y then .isTrue (by rw [h]) else .isFalse (fun hh => h (by injection hh))
  | .str x, .str y =>
      if h : x = y then .isTrue (by rw [h]) else .isFalse (fun hh => h (by injection hh))
  | .arr xs, .arr ys =>
      match decEqListJ xs ys with
      | .isTrue h => .isTrue (by rw [h])
      | .isFalse h => .isFalse (fun hh => h (by injection hh))
  | .obj xs, .obj ys =>
      match decEqFieldsJ xs ys with
      | .isTrue h => .isTrue (by rw [h])
      | .isFalse h => .isFalse (fun hh => h (by injection hh))
  | .null, .bool _ => .isFalse (fun h => J.noConfusion h)
  | .null, .num _ => .isFalse (fun h => J.noConfusion h)
  | .null, .str _ => .isFalse (fun h => J.noConfusion h)
  | .null, .arr _ => .isFalse (fun h => J.noConfusion h)
  | .null, .obj _ => .isFalse (fun h => J.noConfusion h)
  | .bool _, .null => .isFalse (fun h => J.noConfusion h)
  | .bool _, .num _ => .isFalse (fun h => J.noConfusion h)
  | .bool _, .str _ => .isFalse (fun h => J.noConfusion h)
  | .bool _, .arr _ => .isFalse (fun h => J.noConfusion h)
  | .bool _, .obj _ => .isFalse (fun h => J.noConfusion h)
  | .num _, .null => .isFalse (fun h => J.noConfusion h)
  | .num _, .bool _ => .isFalse (fun h => J.noConfusion h)
  | .num _, .str _ => .isFalse (fun h => J.noConfusion h)
  | .num _, .arr _ => .isFalse (fun h => J.noConfusion h)
  | .num _, .obj _ => .isFalse (fun h => J.noConfusion h)
  | .str _, .null => .isFalse (fun h => J.noConfusion h)
  | .str _, .bool _ => .isFalse (fun h => J.noConfusion h)
  | .str _, .num _ => .isFalse (fun h => J.noConfusion h)
  | .str _, .arr _ => .isFalse (fun h => J.noConfusion h)
  | .str _, .obj _ => .isFalse (fun h => J.noConfusion h)
  | .arr _, .null => .isFalse (fun h => J.noConfusion h)
  | .arr _, .bool _ => .isFalse (fun h => J.noConfusion h)
  | .arr _, .num _ => .isFalse (fun h => J.noConfusion h)
  | .arr _, .str _ => .isFalse (fun h => J.noConfusion h)
  | .arr _, .obj _ => .isFalse (fun h => J.noConfusion h)
  | .obj _, .null => .isFalse (fun h => J.noConfusion h)
  | .obj _, .bool _ => .isFalse (fun h => J.noConfusion h)
  | .obj _, .num _ => .isFalse (fun h => J.noConfusion h)
  | .obj _, .str _ => .isFalse (fun h => J.noConfusion h)
  | .obj _, .arr _ => .isFalse (fun h => J.noConfusion h)

def decEqListJ : (a b : List J) → Decidable (a = b)
  | [], [] => .isTrue rfl
  | [], _ :: _ => .isFalse (fun h => List.noConfusion h)
  | _ :: _, [] => .isFalse (fun h => List.noConfusion h)
  | x :: xs, y :: ys =>
      match decEqJ x y, decEqListJ xs ys with
      | .isTrue h1, .isTrue h2 => .isTrue (by rw [h1, h2])
      | .isFalse h1, _ => .isFalse (fun hh => h1 (by injection hh))
      | _, .isFalse h2 => .isFalse (fun hh => h2 (by injection hh))

def decEqFieldsJ : (a b : List (String × J)) → Decidable (a = b)
  | [], [] => .isTrue rfl
  | [], _ :: _ => .isFalse (fun h => List.noConfusion h)
  | _ :: _, [] => .isFalse (fun h => List.noConfusion h)
  | (k1, v1) :: xs, (k2, v2) :: ys =>
      match String.decEq k1 k2, decEqJ v1 v2, decEqFieldsJ xs ys with
      | .isTrue h0, .isTrue h1, .isTrue h2 => .isTrue (by rw [h0, h1, h2])
      | .isFalse h0, _, _ => .isFalse (fun hh => by cases hh; exact h0 rfl)
      | _, .isFalse h1, _ => .isFalse (fun hh => by cases hh; exact h1 rfl)
      | _, _, .isFalse h2 => .isFalse (fun hh => by cases hh; exact h2 rfl)

end

instance : DecidableEq J := decEqJ

/-! ## `_round_int` (souzu/bambu/mqtt.py, lines 38–42)

Python's built-in `round` rounds to the nearest integer with ties going to
the even neighbour (banker's rounding).  `pyRound` is that function on
exact rationals; `_round_int` is the attrs field converter, which maps
`None` to `None` and otherwise returns `int(round(value))`. -/

/-- Python's `round(x)` for a real (modelled rational) argument: nearest
integer, ties to even. -/
def pyRound (q : ℚ) : ℤ :=
  let f := ⌊q⌋
  let r := q - (f : ℚ)
  if r < 1/2 then f
  else if 1/2 < r then f + 1
  else if f % 2 = 0 then f else f + 1

/-- `_round_int`: round noisy floats to ints; `None` passes through. -/
def _round_int (v : Option ℚ) : Option ℤ :=
  v.map pyRound

/-! ## Ordered dictionaries (Python `dict` on JSON objects) -/

/-- `d[k]` lookup in an ordered association list (first binding wins,
mirroring a Python dict, whose keys are unique by construction). -/
def getKey (fields : List (String × J)) (k : String) : Option J :=
  match fields with
  | [] => none
  | (k1, v) :: rest => if k1 = k then some v else getKey rest k

/-- `d[k] = v` on a key already present: replace in place, keep position. -/
def setKey (fields : List (String × J)) (k : String) (v : J) : List (String × J) :=
  fields.map (fun p => if p.1 = k then (k, v) else p)

/-! ## `_custom_list_merge` and the `deepmerge` `Merger` (mqtt.py 148–174)

The `Merger` is configured with `[(list, _custom_list_merge), (dict,
"merge"), (set, "union")]` and `"override"` for both fallback and type
conflict.  JSON never yields Python sets, so the reachable strategies are:
objects of the same type merge key-by-key (existing keys merged
recursively in base order, new keys appended in patch order), two lists go
through `_custom_list_merge`, and everything else — scalars or a type
conflict — is overridden by the patch value.

`_custom_list_merge` at path `["print", "lights_report"]` rebuilds a dict
keyed by `item["node"]` from the base list and then upserts each patch
item; `item["node"]` on an item without that key raises `KeyError` (and a
non-dict item raises `TypeError`), which we model with `Except.error`.
For every other path a non-empty patch list replaces the base list and an
empty patch list keeps the base list. -/

/-- `item["node"]`: the keying subscript used by `_custom_list_merge`.
Fails (KeyError / TypeError) when the item is not an object with a
`"node"` key. -/
def nodeOfItem (item : J) : Except String J :=
  match item with
  | J.obj fields =>
      match getKey fields "node" with
      | some v => Except.ok v
      | none => Except.error "KeyError: node"
  | _ => Except.error "TypeError: item is not a dict"

/-- `items[k] = item` on a Python dict held as an ordered association
list: replace the value of an existing key in place, otherwise append. -/
def upsertItem (items : List (J × J)) (k : J) (item : J) : List (J × J) :=
  match items with
  | [] => [(k, item)]
  | (k1, v) :: rest =>
      if k1 = k then (k1, item) :: rest else (k1, v) :: upsertItem rest k item

/-- Fold a list of `lights_report` items into the keyed dict, failing on
any item without a `"node"` key. -/
def upsertAll (items : List (J × J)) : List J → Except String (List (J × J))
  | [] => Except.ok items
  | item :: rest => do
      let k ← nodeOfItem item
      upsertAll (upsertItem items k item) rest

/-- `_custom_list_merge(config, path, base, nxt)` for two lists. -/
def _custom_list_merge (path : List String) (base nxt : List J) : Except String J := do
  if path = ["print", "lights_report"] then
    let items ← upsertAll [] base
    let items ← upsertAll items nxt
    Except.ok (J.arr (items.map (fun p => p.2)))
  else
    if nxt.isEmpty then Except.ok (J.arr base) else Except.ok (J.arr nxt)

mutual

/-- `_MERGER.merge(base, nxt)` of the `deepmerge` `Merger` configured in
mqtt.py, with the path threaded as `deepmerge` does. -/
def mergeJ (path : List String) : J → J → Except String J
  | J.obj b, J.obj n => (mergeEntries path b n).map J.obj
  | J.arr b, J.arr n => _custom_list_merge path b n
  | _, n => Except.ok n

/-- The `"merge"` dict strategy: iterate the patch items; keys already in
the base are merged recursively in place, new keys are appended. -/
def mergeEntries (path : List String) :
    List (String × J) → List (String × J) → Except String (List (String × J))
  | acc, [] => Except.ok acc
  | acc, (k, v) :: rest => do
      let acc' ← match getKey acc k with
        | some bv => do
            let m ← mergeJ (path ++ [k]) bv v
            Except.ok (setKey acc k m)
        | none => Except.ok (acc ++ [(k, v)])
      mergeEntries path acc' rest

end

/-! ## The snapshot records (mqtt.py 48–145)

The attrs classes, with Python `float` modelled as `ℚ` and `datetime` as
an abstract integer tick.  `bed_temper` and `nozzle_temper` are declared
with `converter=_round_int`; their stored type is therefore `Option ℤ`
and the converter is applied wherever a value is ingested. -/

structure BambuLightReport where
  node : Option String := none
  mode : Option String := none
  deriving DecidableEq, Repr, Inhabited

structure BambuAmsSlot where
  id : Option ℤ := none
  cols : List String := []
  nozzle_temp_max : Option ℚ := none
  nozzle_temp_min : Option ℚ := none
  tray_color : Option String := none
  tray_info_idx : Option String := none
  tray_type : Option String := none
  deriving DecidableEq, Repr, Inhabited

structure BambuAmsDetails where
  humidity : Option ℤ := none
  id : Option ℤ := none
  temp : Option ℚ := none
  tray : List BambuAmsSlot := []
  deriving DecidableEq, Repr, Inhabited

structure BambuAmsSummary where
  ams : List BambuAmsDetails := []
  tray_now : Option ℤ := none
  tray_pre : Option ℤ := none
  deriving DecidableEq, Repr, Inhabited

structure BambuUploadReport where
  file_size : Option ℤ := none
  finish_size : Option ℤ := none
  message : Option String := none
  progress : Option ℤ := none
  speed : Option ℤ := none
  status : Option String := none
  time_remaining : Option ℤ := none
  trouble_id : Option String := none
  deriving DecidableEq, Repr, Inhabited

structure BambuStatusReport where
  ams : Option BambuAmsSummary := none
  aux_part_fan : Option Bool := none
  bed_target_temper : Option ℚ := none
  bed_temper : Option ℤ := none
  big_fan1_speed : Option ℤ := none
  big_fan2_speed : Option ℤ := none
  chamber_temper : Option ℚ := none
  cooling_fan_speed : Option ℤ := none
  fail_reason : Option ℤ := none
  fan_gear : Option ℤ := none
  gcode_file_prepare_percent : Option ℤ := none
  gcode_start_time : Option ℤ := none
  gcode_state : Option String := none
  heatbreak_fan_speed : Option ℤ := none
  layer_num : Option ℤ := none
  lights_report : List BambuLightReport := []
  mc_percent : Option ℤ := none
  mc_print_error_code : Option String := none
  mc_print_stage : Option ℤ := none
  mc_print_sub_stage : Option ℤ := none
  mc_remaining_time : Option ℤ := none
  nozzle_target_temper : Option ℚ := none
  nozzle_temper : Option ℤ := none
  print_error : Option ℤ := none
  print_gcode_action : Option ℤ := none
  print_real_action : Option ℤ := none
  print_type : Option String := none
  queue_number : Option ℤ := none
  sdcard : Option Bool := none
  total_layer_num : Option ℤ := none
  upload : Option BambuUploadReport := none
  deriving DecidableEq, Repr, Inhabited

/-- `_BambuWrapper`: the single mandatory top-level `print` key. -/
structure BambuWrapper where
  print : BambuStatusReport
  deriving DecidableEq, Repr

/-! ## `cattrs` `unstructure` of the snapshot records

attrs `unstructure` emits every field, in declaration order; `None`
becomes JSON `null`, lists become JSON arrays, nested attrs classes
become objects. -/

def jOfOptInt : Option ℤ → J
  | none => J.null
  | some n => J.num (n : ℚ)

def jOfOptRat : Option ℚ → J
  | none => J.null
  | some q => J.num q

def jOfOptStr : Option String → J
  | none => J.null
  | some s => J.str s

def jOfOptBool : Option Bool → J
  | none => J.null
  | some b => J.bool b

def unstructureLight (l : BambuLightReport) : J :=
  J.obj [("node", jOfOptStr l.node), ("mode", jOfOptStr l.mode)]

def unstructureSlot (s : BambuAmsSlot) : J :=
  J.obj
    [("id", jOfOptInt s.id),
     ("cols", J.arr (s.cols.map J.str)),
     ("nozzle_temp_max", jOfOptRat s.nozzle_temp_max),
     ("nozzle_temp_min", jOfOptRat s.nozzle_temp_min),
     ("tray_color", jOfOptStr s.tray_color),
     ("tray_info_idx", jOfOptStr s.tray_info_idx),
     ("tray_type", jOfOptStr s.tray_type)]

def unstructureDetails (d : BambuAmsDetails) : J :=
  J.obj
    [("humidity", jOfOptInt d.humidity),
     ("id", jOfOptInt d.id),
     ("temp", jOfOptRat d.temp),
     ("tray", J.arr (d.tray.map unstructureSlot))]

def unstructureSummary (s : BambuAmsSummary) : J :=
  J.obj
    [("ams", J.arr (s.ams.map unstructureDetails)),
     ("tray_now", jOfOptInt s.tray_now),
     ("tray_pre", jOfOptInt s.tray_pre)]

def unstructureUpload (u : BambuUploadReport) : J :=
  J.obj
    [("file_size", jOfOptInt u.file_size),
     ("finish_size", jOfOptInt u.finish_size),
     ("message", jOfOptStr u.message),
     ("progress", jOfOptInt u.progress),
     ("speed", jOfOptInt u.speed),
     ("status", jOfOptStr u.status),
     ("time_remaining", jOfOptInt u.time_remaining),
     ("trouble_id", jOfOptStr u.trouble_id)]

def unstructureReport (r : BambuStatusReport) : J :=
  J.obj
    [("ams", match r.ams with | none => J.null | some s => unstructureSummary s),
     ("aux_part_fan", jOfOptBool r.aux_part_fan),
     ("bed_target_temper", jOfOptRat r.bed_target_temper),
     ("bed_temper", jOfOptInt r.bed_temper),
     ("big_fan1_speed", jOfOptInt r.big_fan1_speed),
     ("big_fan2_speed", jOfOptInt r.big_fan2_speed),
     ("chamber_temper", jOfOptRat r.chamber_temper),
     ("cooling_fan_speed", jOfOptInt r.cooling_fan_speed),
     ("fail_reason", jOfOptInt r.fail_reason),
     ("fan_gear", jOfOptInt r.fan_gear),
     ("gcode_file_prepare_percent", jOfOptInt r.gcode_file_prepare_percent),
     ("gcode_start_time", jOfOptInt r.gcode_start_time),
     ("gcode_state", jOfOptStr r.gcode_state),
     ("heatbreak_fan_speed", jOfOptInt r.heatbreak_fan_speed),
     ("layer_num", jOfOptInt r.layer_num),
     ("lights_report", J.arr (r.lights_report.map unstructureLight)),
     ("mc_percent", jOfOptInt r.mc_percent),
     ("mc_print_error_code", jOfOptStr r.mc_print_error_code),
     ("mc_print_stage", jOfOptInt r.mc_print_stage),
     ("mc_print_sub_stage", jOfOptInt r.mc_print_sub_stage),
     ("mc_remaining_time", jOfOptInt r.mc_remaining_time),
     ("nozzle_target_temper", jOfOptRat r.nozzle_target_temper),
     ("nozzle_temper", jOfOptInt r.nozzle_temper),
     ("print_error", jOfOptInt r.print_error),
     ("print_gcode_action", jOfOptInt r.print_gcode_action),
     ("print_real_action", jOfOptInt r.print_real_action),
     ("print_type", jOfOptStr r.print_type),
     ("queue_number", jOfOptInt r.queue_number),
     ("sdcard", jOfOptBool r.sdcard),
     ("total_layer_num", jOfOptInt r.total_layer_num),
     ("upload", match r.upload with | none => J.null | some u => unstructureUpload u)]

/-! ## `cattrs` `structure` of the snapshot records

The default converter ignores object keys that are not attrs fields,
substitutes the attrs default for absent fields, treats `null` on an
`Optional` field as `None`, and raises on shape mismatches (we model the
raised exception with `Except.error`; every such error is caught by
`_parse_payload`).  Python's `int(x)` on a float truncates toward zero
(`intOfPy`); every `int | None` field — `bed_temper` and `nozzle_temper`
included, since the cattrs hook for the declared annotation runs before
any attrs converter — is coerced that way on ingest. -/

/-- Python `int(x)` of an exact numeric value: truncation toward zero. -/
def intOfPy (q : ℚ) : ℤ :=
  if q < 0 then ⌈q⌉ else ⌊q⌋

def decodeOptInt : Option J → Except String (Option ℤ)
  | none => Except.ok none
  | some J.null => Except.ok none
  | some (J.num q) => Except.ok (some (intOfPy q))
  | some _ => Except.error "invalid int field"

def decodeOptRat : Option J → Except String (Option ℚ)
  | none => Except.ok none
  | some J.null => Except.ok none
  | some (J.num q) => Except.ok (some q)
  | some _ => Except.error "invalid float field"

def decodeOptStr : Option J → Except String (Option String)
  | none => Except.ok none
  | some J.null => Except.ok none
  | some (J.str s) => Except.ok (some s)
  | some _ => Except.error "invalid str field"

def decodeOptBool : Option J → Except String (Option Bool)
  | none => Except.ok none
  | some J.null => Except.ok none
  | some (J.bool b) => Except.ok (some b)
  | some _ => Except.error "invalid bool field"

/-- Ingest for the two `converter=_round_int` fields, as the default
cattrs converter performs it (`prefer_attrib_converters` defaults to
`False`): the value is first structured per the declared `int | None`
annotation — Python `int()`, truncation toward zero — and the attrs
converter `_round_int` then runs inside `__init__` on that
already-integral value, where rounding is the identity. -/
def decodeTemper : Option J → Except String (Option ℤ)
  | none => Except.ok none
  | some J.null => Except.ok none
  | some (J.num q) => Except.ok (_round_int (some ((intOfPy q : ℤ) : ℚ)))
  | some _ => Except.error "invalid temperature field"

def decodeStrItem : J → Except String String
  | J.str s => Except.ok s
  | _ => Except.error "invalid str item"

def decodeListWith {α : Type} (dec : J → Except String α) :
    Option J → Except String (List α)
  | none => Except.ok []
  | some (J.arr xs) => xs.mapM dec
  | some _ => Except.error "invalid list field"

def structureLight (j : J) : Except String BambuLightReport :=
  match j with
  | J.obj fs => do
      let node ← decodeOptStr (getKey fs "node")
      let mode ← decodeOptStr (getKey fs "mode")
      Except.ok { node := node, mode := mode }
  | _ => Except.error "invalid BambuLightReport"

def structureSlot (j : J) : Except String BambuAmsSlot :=
  match j with
  | J.obj fs => do
      let id ← decodeOptInt (getKey fs "id")
      let cols ← decodeListWith decodeStrItem (getKey fs "cols")
      let nozzle_temp_max ← decodeOptRat (getKey fs "nozzle_temp_max")
      let nozzle_temp_min ← decodeOptRat (getKey fs "nozzle_temp_min")
      let tray_color ← decodeOptStr (getKey fs "tray_color")
      let tray_info_idx ← decodeOptStr (getKey fs "tray_info_idx")
      let tray_type ← decodeOptStr (getKey fs "tray_type")
      Except.ok
        { id := id, cols := cols, nozzle_temp_max := nozzle_temp_max,
          nozzle_temp_min := nozzle_temp_min, tray_color := tray_color,
          tray_info_idx := tray_info_idx, tray_type := tray_type }
  | _ => Except.error "invalid BambuAmsSlot"

def structureDetails (j : J) : Except String BambuAmsDetails :=
  match j with
  | J.obj fs => do
      let humidity ← decodeOptInt (getKey fs "humidity")
      let id ← decodeOptInt (getKey fs "id")
      let temp ← decodeOptRat (getKey fs "temp")
      let tray ← decodeListWith structureSlot (getKey fs "tray")
      Except.ok { humidity := humidity, id := id, temp := temp, tray := tray }
  | _ => Except.error "invalid BambuAmsDetails"

def structureSummary (j : J) : Except String BambuAmsSummary :=
  match j with
  | J.obj fs => do
      let ams ← decodeListWith structureDetails (getKey fs "ams")
      let tray_now ← decodeOptInt (getKey fs "tray_now")
      let tray_pre ← decodeOptInt (getKey fs "tray_pre")
      Except.ok { ams := ams, tray_now := tray_now, tray_pre := tray_pre }
  | _ => Except.error "invalid BambuAmsSummary"

def structureUpload (j : J) : Except String BambuUploadReport :=
  match j with
  | J.obj fs => do
      let file_size ← decodeOptInt (getKey fs "file_size")
      let finish_size ← decodeOptInt (getKey fs "finish_size")
      let message ← decodeOptStr (getKey fs "message")
      let progress ← decodeOptInt (getKey fs "progress")
      let speed ← decodeOptInt (getKey fs "speed")
      let status ← decodeOptStr (getKey fs "status")
      let time_remaining ← decodeOptInt (getKey fs "time_remaining")
      let trouble_id ← decodeOptStr (getKey fs "trouble_id")
      Except.ok
        { file_size := file_size, finish_size := finish_size, message := message,
          progress := progress, speed := speed, status := status,
          time_remaining := time_remaining, trouble_id := trouble_id }
  | _ => Except.error "invalid BambuUploadReport"

def decodeOptWith {α : Type} (dec : J → Except String α) :
    Option J → Except String (Option α)
  | none => Except.ok none
  | some J.null => Except.ok none
  | some j => (dec j).map some

def structureReport (j : J) : Except String BambuStatusReport :=
  match j with
  | J.obj fs => do
      let ams ← decodeOptWith structureSummary (getKey fs "ams")
      let aux_part_fan ← decodeOptBool (getKey fs "aux_part_fan")
      let bed_target_temper ← decodeOptRat (getKey fs "bed_target_temper")
      let bed_temper ← decodeTemper (getKey fs "bed_temper")
      let big_fan1_speed ← decodeOptInt (getKey fs "big_fan1_speed")
      let big_fan2_speed ← decodeOptInt (getKey fs "big_fan2_speed")
      let chamber_temper ← decodeOptRat (getKey fs "chamber_temper")
      let cooling_fan_speed ← decodeOptInt (getKey fs "cooling_fan_speed")
      let fail_reason ← decodeOptInt (getKey fs "fail_reason")
      let fan_gear ← decodeOptInt (getKey fs "fan_gear")
      let gcode_file_prepare_percent ← decodeOptInt (getKey fs "gcode_file_prepare_percent")
      let gcode_start_time ← decodeOptInt (getKey fs "gcode_start_time")
      let gcode_state ← decodeOptStr (getKey fs "gcode_state")
      let heatbreak_fan_speed ← decodeOptInt (getKey fs "heatbreak_fan_speed")
      let layer_num ← decodeOptInt (getKey fs "layer_num")
      let lights_report ← decodeListWith structureLight (getKey fs "lights_report")
      let mc_percent ← decodeOptInt (getKey fs "mc_percent")
      let mc_print_error_code ← decodeOptStr (getKey fs "mc_print_error_code")
      let mc_print_stage ← decodeOptInt (getKey fs "mc_print_stage")
      let mc_print_sub_stage ← decodeOptInt (getKey fs "mc_print_sub_stage")
      let mc_remaining_time ← decodeOptInt (getKey fs "mc_remaining_time")
      let nozzle_target_temper ← decodeOptRat (getKey fs "nozzle_target_temper")
      let nozzle_temper ← decodeTemper (getKey fs "nozzle_temper")
      let print_error ← decodeOptInt (getKey fs "print_error")
      let print_gcode_action ← decodeOptInt (getKey fs "print_gcode_action")
      let print_real_action ← decodeOptInt (getKey fs "print_real_action")
      let print_type ← decodeOptStr (getKey fs "print_type")
      let queue_number ← decodeOptInt (getKey fs "queue_number")
      let sdcard ← decodeOptBool (getKey fs "sdcard")
      let total_layer_num ← decodeOptInt (getKey fs "total_layer_num")
      let upload ← decodeOptWith structureUpload (getKey fs "upload")
      Except.ok
        { ams := ams, aux_part_fan := aux_part_fan,
          bed_target_temper := bed_target_temper, bed_temper := bed_temper,
          big_fan1_speed := big_fan1_speed, big_fan2_speed := big_fan2_speed,
          chamber_temper := chamber_temper, cooling_fan_speed := cooling_fan_speed,
          fail_reason := fail_reason, fan_gear := fan_gear,
          gcode_file_prepare_percent := gcode_file_prepare_percent,
          gcode_start_time := gcode_start_time, gcode_state := gcode_state,
          heatbreak_fan_speed := heatbreak_fan_speed, layer_num := layer_num,
          lights_report := lights_report, mc_percent := mc_percent,
          mc_print_error_code := mc_print_error_code,
          mc_print_stage := mc_print_stage, mc_print_sub_stage := mc_print_sub_stage,
          mc_remaining_time := mc_remaining_time,
          nozzle_target_temper := nozzle_target_temper, nozzle_temper := nozzle_temper,
          print_error := print_error, print_gcode_action := print_gcode_action,
          print_real_action := print_real_action, print_type := print_type,
          queue_number := queue_number, sdcard := sdcard,
          total_layer_num := total_layer_num, upload := upload }
  | _ => Except.error "invalid BambuStatusReport"

/-- `structure(merged, _BambuWrapper)`: the top-level `print` key is a
mandatory field (no attrs default), so its absence is an error; unknown
top-level keys are ignored. -/
def structureWrapper (j : J) : Except String BambuWrapper :=
  match j with
  | J.obj fs =>
      match getKey fs "print" with
      | some p => (structureReport p).map (fun r => { print := r })
      | none => Except.error "KeyError: print"
  | _ => Except.error "invalid _BambuWrapper"

/-! ## The connection: cache, `_parse_payload`, and queue fan-out
(mqtt.py 141–145, 213–332)

`BambuMqttConnection` owns a `_Cache` (`datetime`s modelled as integer
ticks) and a list of per-subscription `asyncio.Queue`s.  A queue is
created by `subscribe()` as `Queue[BambuStatusReport]()` — `asyncio`'s
default `maxsize=0`, for which `full()` is always false — and removed
from the list when the subscription scope exits.  `put_nowait` raises
`QueueFull` only when `0 < maxsize <= qsize()`; `_consume_messages`
catches it, logs a warning and drops the snapshot for that queue only.
We record drops in a counter so theorems can talk about them.  The
observation order of a subscriber is its queue's FIFO order
(`_consume_queue` yields each item exactly once). -/

structure _Cache where
  print : Option BambuStatusReport := none
  last_update : Option ℤ := none
  last_full_update : Option ℤ := none
  deriving DecidableEq, Repr, Inhabited

/-- An inbound MQTT payload: either something `json.loads` accepted, or a
message whose decoding / JSON parsing raised. -/
inductive Payload where
  | valid (j : J)
  | invalid
  deriving DecidableEq, Repr

/-- `old_dict = {"print": unstructure(self._cache.print) or {}}`:
`unstructure(None)` is `None`, which Python's `or` turns into `{}`. -/
def oldDict (cachePrint : Option BambuStatusReport) : J :=
  J.obj [("print", match cachePrint with
    | none => J.obj []
    | some r => unstructureReport r)]

/-- `BambuMqttConnection._parse_payload`: decode, merge onto the cached
snapshot, and structure; any exception is caught, logged with the
payload, and turned into `None`. -/
def _parse_payload (cachePrint : Option BambuStatusReport) :
    Payload → Option BambuWrapper
  | .invalid => none
  | .valid newDict =>
      match (do
        let merged ← mergeJ [] (oldDict cachePrint) newDict
        structureWrapper merged : Except String BambuWrapper) with
      | .ok w => some w
      | .error _ => none

/-- One subscriber queue.  `maxsize = 0` (the `asyncio` default) means
unbounded; `dropped` counts `QueueFull` drops. -/
structure SQueue where
  maxsize : ℕ := 0
  items : List BambuStatusReport := []
  dropped : ℕ := 0
  deriving DecidableEq, Repr, Inhabited

/-- `queue.put_nowait(snapshot)` with the surrounding
`except QueueFull: logging.warning(...)` of `_consume_messages`:
if the queue is full the snapshot is dropped for this queue, otherwise it
is appended. -/
def put_nowait (q : SQueue) (r : BambuStatusReport) : SQueue :=
  if 0 < q.maxsize ∧ q.maxsize ≤ q.items.length then
    { q with dropped := q.dropped + 1 }
  else
    { q with items := q.items ++ [r] }

/-- The mutable state of one `BambuMqttConnection`: the cache and the
registered subscriber queues in registration order.  The `ℕ` component
models Python object identity of each queue (`list.remove` removes by
identity). -/
structure ConnState where
  cache : _Cache := {}
  queues : List (ℕ × SQueue) := []
  deriving DecidableEq, Repr, Inhabited

/-- The externally visible events of one connection: a subscription
entering its scope (`subscribe().__aenter__` appends a fresh `Queue()`),
a subscription leaving its scope (`finally: self._queues.remove(queue)`),
and one inbound MQTT message being consumed. -/
inductive ConnEvent where
  | subscribe (id : ℕ)
  | unsubscribe (id : ℕ)
  | message (now : ℤ) (p : Payload)
  deriving DecidableEq, Repr

/-- `list.remove` by identity: drop the first queue with this identity. -/
def removeQueue (qs : List (ℕ × SQueue)) (i : ℕ) : List (ℕ × SQueue) :=
  match qs with
  | [] => []
  | q :: rest => if q.1 = i then rest else q :: removeQueue rest i

/-- One step of the connection (mqtt.py 268–273 and 296–312): a parsed
message replaces the cached snapshot (merge + assignment of a fresh
`_Cache`, atomic from the caller's point of view), stamps `last_update`,
and is pushed to every registered queue; a message whose parse or merge
failed is logged and dropped, leaving the state untouched. -/
def connStep (st : ConnState) : ConnEvent → ConnState
  | .subscribe i => { st with queues := st.queues ++ [(i, {})] }
  | .unsubscribe i => { st with queues := removeQueue st.queues i }
  | .message now p =>
      match _parse_payload st.cache.print p with
      | some w =>
          { cache :=
              { print := some w.print
                last_update := some now
                last_full_update := st.cache.last_full_update }
            queues := st.queues.map (fun q => (q.1, put_nowait q.2 w.print)) }
      | none => st

def runConn (st : ConnState) (evs : List ConnEvent) : ConnState :=
  evs.foldl connStep st

def findQueue (st : ConnState) (i : ℕ) : Option SQueue :=
  (st.queues.find? (fun q => q.1 = i)).map (fun q => q.2)

/-- The snapshots the connection broadcasts while consuming an event
list: the merge results of the successfully parsed messages, in arrival
order. -/
def broadcasts (st : ConnState) : List ConnEvent → List BambuStatusReport
  | [] => []
  | e :: rest =>
      (match e with
        | .message _ p =>
            match _parse_payload st.cache.print p with
            | some w => [w.print]
            | none => []
        | _ => []) ++ broadcasts (connStep st e) rest

/-- The subscription ids an event list touches (message events touch
none). -/
def touchedIds : List ConnEvent → List ℕ
  | [] => []
  | .subscribe i :: rest => i :: touchedIds rest
  | .unsubscribe i :: rest => i :: touchedIds rest
  | .message _ _ :: rest => touchedIds rest

/-- The cached snapshot as a pure fold over the inbound payloads alone:
the deep-merge, in arrival order, of every successfully parsed patch
(a failed patch leaves the snapshot unchanged). -/
def snapshotFold (s : Option BambuStatusReport) : List Payload → Option BambuStatusReport
  | [] => s
  | p :: rest =>
      snapshotFold
        (match _parse_payload s p with
          | some w => some w.print
          | none => s) rest

def payloadsOf : List ConnEvent → List Payload
  | [] => []
  | .message _ p :: rest => p :: payloadsOf rest
  | .subscribe _ :: rest => payloadsOf rest
  | .unsubscribe _ :: rest => payloadsOf rest

/-! ## The job-tracking state machine (souzu/job_tracking.py)

`timedelta` is modelled in integer minutes (every duration the module
builds is `timedelta(minutes=...)`), `datetime` as an integer tick in
minutes.  The Slack sink is an oracle of three calls, each returning a
classified `SlackApiError` or a result; `strftime` rendering inside
`_format_time` / `_format_date_time` is abstracted to `toString` of the
rounded tick (no property below looks inside the rendered text). -/

inductive JobState where
  | RUNNING
  | PAUSED
  deriving DecidableEq, Repr

structure PrintJob where
  duration : ℤ
  eta : Option ℤ := none
  state : JobState := JobState.RUNNING
  slack_channel : Option String := none
  slack_thread_ts : Option String := none
  start_message : Option String := none
  deriving DecidableEq, Repr

structure PrinterState where
  current_job : Option PrintJob := none
  deriving DecidableEq, Repr, Inhabited

/-- `SlackApiError`, the classified error all three sink calls may raise. -/
inductive SlackErr where
  | api (msg : String)
  deriving DecidableEq, Repr

/-- The notification sink (souzu/slack/thread.py):
`post_to_channel(channel, message) -> thread_ts`,
`post_to_thread(channel, thread_ts, message)`, and
`edit_message(channel, message_ts, message)`. -/
structure Sink where
  post_to_channel : Option String → String → Except SlackErr (Option String)
  post_to_thread : Option String → String → String → Except SlackErr (Option String)
  edit_message : Option String → String → String → Except SlackErr Unit

/-- The ambient collaborators of one device's state machine: the device's
display name, `CONFIG.slack.print_notification_channel`, and the sink. -/
structure Env where
  device_name : String
  cfg_channel : Option String
  sink : Sink

/-- What `logging.error` records inside the notification helpers. -/
inductive LogEvent where
  | failedNotifyChannel (e : SlackErr)
  | failedNotifyThread (e : SlackErr)
  | failedNotifyChannelFallback (e : SlackErr)
  | failedEditMessage (e : SlackErr)
  deriving DecidableEq, Repr

/-- `AssertionError`: the only exception the `_job_*` handlers can let
escape (Slack errors are caught inside). -/
inductive JobErr where
  | assertionError
  deriving DecidableEq, Repr

/-- Python `a or b` on optional strings (`""` is falsy). -/
def orElseStr (a b : Option String) : Option String :=
  match a with
  | some s => if s = "" then b else some s
  | none => b

/-- `math.ceil` of the exact quotient `m / d` of two integers (the
divisors used below are the positive constants 5, 30, 60 and the round-up
units): `⌈m / d⌉ = -⌊(-m) / d⌋`, written with `Int.fdiv` so it computes. -/
def ceilDiv (m d : ℤ) : ℤ :=
  -(Int.fdiv (-m) d)

/-- `_format_duration` on a duration of `m` minutes. -/
def _format_duration (m : ℤ) : String :=
  if m < 1 then "1 minute"
  else if m < 55 then toString (ceilDiv m 5 * 5) ++ " minutes"
  else if m < 480 then
    let k := ceilDiv m 30
    if k = 2 then "1 hour"
    else if k % 2 = 0 then toString (k / 2) ++ " hours"
    else toString ((k - 1) / 2) ++ ".5 hours"
  else toString (ceilDiv m 60) ++ " hours"

/-- `_round_up(time, unit)`: round up to the next multiple of `unit`
minutes within the day (ticks are minutes, a day is 1440). -/
def _round_up (t unit : ℤ) : ℤ :=
  let start_of_day := 1440 * (Int.fdiv t 1440)
  start_of_day + unit * ceilDiv (t - start_of_day) unit

/-- `_format_time`, with `strftime('%I:%M %p')` abstracted. -/
def _format_time (t : ℤ) : String :=
  "time " ++ toString t

/-- `_format_date_time`, with `strftime('%I:%M %p on %A')` abstracted. -/
def _format_date_time (t : ℤ) : String :=
  "datetime " ++ toString t

/-- `_format_eta`.  Note the source compares `rounded_eta.date` with
`datetime.now(...).date` without calling either method; bound methods of
distinct objects never compare equal, so the over-eight-hour branch
always renders the date-and-time form. -/
def _format_eta (now eta : ℤ) : String :=
  let duration := eta - now
  if duration < 1 then _format_time (_round_up eta 1)
  else if duration < 55 then _format_time (_round_up eta 5)
  else if duration < 480 then _format_time (_round_up eta 30)
  else _format_date_time (_round_up eta 60)

/-- Modelled from the spec: `parse_error_code` from
`souzu/bambu/errors.py`, which is not under the provided sources; the
spec and its tests describe a total decoding of an error code to a
human-readable message.  Only its totality is load-bearing here. -/
def parse_error_code (c : Option ℤ) : String :=
  "decoded error " ++ toString (c.getD 0)

/-- Modelled from the spec: `CANCELLED_ERROR_CODES` from
`souzu/bambu/errors.py` (not under the provided sources), the
"user-cancelled" code set; the two members listed are pinned by its
tests. -/
def CANCELLED_ERROR_CODES : List ℤ := [0x0300400C, 0x0500400E]

/-- `_update_thread`: post the update to the job's thread (or the
channel when no thread is recorded), falling back to the channel and
finally editing the start message; every `SlackApiError` is caught and
logged. -/
def _update_thread (env : Env) (job : PrintJob) (edited update : String) :
    List LogEvent :=
  let ch := orElseStr job.slack_channel env.cfg_channel
  match job.slack_thread_ts with
  | none =>
      match env.sink.post_to_channel ch update with
      | .ok _ => []
      | .error e => [.failedNotifyChannel e]
  | some ts =>
      let threadLogs :=
        match env.sink.post_to_thread ch ts update with
        | .ok _ => []
        | .error e =>
            .failedNotifyThread e ::
              (if ts = "" then []
               else
                 match env.sink.post_to_channel ch update with
                 | .ok _ => []
                 | .error e2 => [.failedNotifyChannelFallback e2])
      let editLogs :=
        match env.sink.edit_message ch ts edited with
        | .ok _ => []
        | .error e => [.failedEditMessage e]
      threadLogs ++ editLogs

/-- Python `long_message or short_message` (`""` is falsy). -/
def orElseMsg (long : Option String) (short : String) : String :=
  match long with
  | some l => if l = "" then short else l
  | none => short

/-- `_update_job`. -/
def _update_job (env : Env) (job : PrintJob) (emoji short : String)
    (long : Option String) : List LogEvent :=
  let updateHead := emoji ++ " " ++ env.device_name ++ ": "
  let editHead :=
    match job.start_message with
    | some sm => if sm = "" then updateHead else "~" ++ sm ++ "~\n" ++ emoji ++ " "
    | none => updateHead
  _update_thread env job (editHead ++ short)
    (updateHead ++ orElseMsg long short)

/-- The rendered start message (an f-string over the device name, the
formatted duration and the formatted ETA). -/
def startMessageOf (env : Env) (now rem : ℤ) : String :=
  env.device_name ++ ": Print started, " ++ _format_duration rem ++
    ", done around " ++ _format_eta now (now + rem)

/-- `_job_started`: `assert report.mc_remaining_time is not None`, build
the job, post the start notification (failure logged, job fields for the
thread handle left unset), and install the job. -/
def _job_started (env : Env) (now : ℤ) (report : BambuStatusReport)
    (state : PrinterState) : Except JobErr (PrinterState × List LogEvent) :=
  match report.mc_remaining_time with
  | none => Except.error .assertionError
  | some rem =>
      let duration := rem
      let eta := now + rem
      let start_message := startMessageOf env now rem
      let job : PrintJob :=
        { duration := duration, eta := some eta, state := .RUNNING,
          start_message := some start_message }
      match env.sink.post_to_channel env.cfg_channel (":progress_bar: " ++ start_message) with
      | .ok thread_ts =>
          Except.ok
            ({ current_job := some
                { job with slack_channel := env.cfg_channel, slack_thread_ts := thread_ts } },
             [])
      | .error e =>
          Except.ok ({ current_job := some job }, [.failedNotifyChannel e])

/-- `_job_paused`. -/
def _job_paused (env : Env) (report : BambuStatusReport) (state : PrinterState) :
    Except JobErr (PrinterState × List LogEvent) :=
  match state.current_job with
  | none => Except.error .assertionError
  | some job =>
      let error_message : Option String :=
        match report.print_error with
        | some c => if c = 0 then none else some (parse_error_code (some c))
        | none => none
      let long :=
        match error_message with
        | some m => "Print paused\nMessage from printer: " ++ m
        | none => "Print paused!"
      let logs := _update_job env job ":warning:" "Paused" (some long)
      Except.ok ({ current_job := some { job with state := .PAUSED, eta := none } }, logs)

/-- `_job_resumed`: asserts both a current job and a remaining time. -/
def _job_resumed (env : Env) (now : ℤ) (report : BambuStatusReport)
    (state : PrinterState) : Except JobErr (PrinterState × List LogEvent) :=
  match state.current_job, report.mc_remaining_time with
  | some job, some rem =>
      let eta := now + rem
      let logs :=
        _update_job env job ":progress_bar:"
          ("Resumed, done around " ++ _format_eta now eta)
          (some ("Print resumed, now done around " ++ _format_eta now eta))
      Except.ok ({ current_job := some { job with state := .RUNNING, eta := some eta } }, logs)
  | _, _ => Except.error .assertionError

/-- `_job_failed`: user-cancelled codes take the cancellation path,
everything else the failure path; the job is cleared either way. -/
def _job_failed (env : Env) (report : BambuStatusReport) (state : PrinterState) :
    Except JobErr (PrinterState × List LogEvent) :=
  match state.current_job with
  | none => Except.error .assertionError
  | some job =>
      let isCancelled :=
        match report.print_error with
        | some c => CANCELLED_ERROR_CODES.contains c
        | none => false
      if isCancelled then
        Except.ok ({ current_job := none },
          _update_job env job ":heavy_minus_sign:" "Cancelled" (some "Print cancelled"))
      else
        Except.ok ({ current_job := none },
          _update_job env job ":x:" "Failed!"
            (some ("Print failed!\nMessage from printer: " ++ parse_error_code report.print_error)))

/-- `_job_completed`. -/
def _job_completed (env : Env) (report : BambuStatusReport) (state : PrinterState) :
    Except JobErr (PrinterState × List LogEvent) :=
  match state.current_job with
  | none => Except.error .assertionError
  | some job =>
      Except.ok ({ current_job := none },
        _update_job env job ":white_check_mark:" "Finished!" (some "Print finished!"))

/-- `_job_tracking_lost`. -/
def _job_tracking_lost (env : Env) (report : BambuStatusReport) (state : PrinterState) :
    Except JobErr (PrinterState × List LogEvent) :=
  match state.current_job with
  | none => Except.error .assertionError
  | some job =>
      Except.ok ({ current_job := none },
        _update_job env job ":question:" "Tracking lost"
          (some "Lost tracking for print job - maybe the printer was disconnected?"))

/-- The `match (state.current_job, report.gcode_state)` dispatch of
`monitor_printer_status`; unmatched pairs are no-ops. -/
def processReport (env : Env) (now : ℤ) (state : PrinterState)
    (report : BambuStatusReport) : Except JobErr (PrinterState × List LogEvent) :=
  match state.current_job, report.gcode_state with
  | none, some g =>
      if g = "RUNNING" then _job_started env now report state
      else Except.ok (state, [])
  | some job, some g =>
      if g = "PAUSE" then
        if job.state = .RUNNING then _job_paused env report state
        else Except.ok (state, [])
      else if g = "RUNNING" then
        if job.state = .PAUSED then _job_resumed env now report state
        else Except.ok (state, [])
      else if g = "FINISH" then _job_completed env report state
      else if g = "FAILED" then _job_failed env report state
      else if g = "IDLE" then _job_tracking_lost env report state
      else Except.ok (state, [])
  | _, none => Except.ok (state, [])

/-- The observable persistence/logging events of one run of
`monitor_printer_status`. -/
inductive MonEvent where
  | processed (r : BambuStatusReport)
  | savedState
  | loggedError
  deriving DecidableEq, Repr

/-- The `async for report in reports` loop: process snapshots until the
stream ends or a handler raises; a raised error aborts the loop with the
state as of the last fully processed snapshot. -/
def runReports (env : Env) :
    PrinterState → List (ℤ × BambuStatusReport) →
      PrinterState × List MonEvent × Option JobErr
  | state, [] => (state, [], none)
  | state, (now, r) :: rest =>
      match processReport env now state r with
      | .ok (state', _) =>
          let res := runReports env state' rest
          (res.1, .processed r :: res.2.1, res.2.2)
      | .error e => (state, [.processed r], some e)

/-- `monitor_printer_status` after the state file is loaded: run the
loop; the `finally` saves the state exactly once on the way out, and the
top-level `except Exception` logs (rather than re-raises) any error. -/
def monitor_printer_status (env : Env) (init : PrinterState)
    (reports : List (ℤ × BambuStatusReport)) : PrinterState × List MonEvent :=
  let res := runReports env init reports
  (res.1,
    res.2.1 ++ [MonEvent.savedState] ++
      (match res.2.2 with
        | some _ => [MonEvent.loggedError]
        | none => []))

/-- A sink whose every call raises a classified API error. -/
def failingSink (e : SlackErr) : Sink where
  post_to_channel := fun _ _ => Except.error e
  post_to_thread := fun _ _ _ => Except.error e
  edit_message := fun _ _ _ => Except.error e

/-- Erase the notification-thread handle fields of a job. -/
def eraseSlackJob (j : PrintJob) : PrintJob :=
  { j with slack_channel := none, slack_thread_ts := none }

def eraseSlackState (s : PrinterState) : PrinterState :=
  { current_job := s.current_job.map eraseSlackJob }

def okStateOf (x : Except JobErr (PrinterState × List LogEvent)) : Option PrinterState :=
  match x with
  | .ok (s, _) => some s
  | .error _ => none

def errOf (x : Except JobErr (PrinterState × List LogEvent)) : Option JobErr :=
  match x with
  | .ok _ => none
  | .error e => some e

def logsOf (x : Except JobErr (PrinterState × List LogEvent)) : Option (List LogEvent) :=
  match x with
  | .ok (_, l) => some l
  | .error _ => none

/-- The total key function used to *state* properties of the keyed merge:
`item["node"]` where it exists, `null` otherwise (the theorems below
assume every item has the key, which makes this agree with
`nodeOfItem`). -/
def nodeD (item : J) : J :=
  match nodeOfItem item with
  | .ok k => k
  | .error _ => J.null

/-- The `node` keys of a `lights_report` list. -/
def keysOf (xs : List J) : List J :=
  xs.map nodeD

/-- Specification-side view of the keyed merge: a base dict entry is
replaced by the patch item with the same key, if any. -/
def substItem (n : List J) (p : J × J) : J × J :=
  match n.find? (fun z => nodeD z = p.1) with
  | some z => (p.1, z)
  | none => p

/-- Specification-side view of the keyed merge: the patch items whose
keys are new relative to `ks`, keyed by their `node`. -/
def newItems (n : List J) (ks : List J) : List (J × J) :=
  (n.filter (fun z => decide (nodeD z ∉ ks))).map (fun z => (nodeD z, z))

/-! ## Concrete fixtures used by closed statements below -/

/-- A sink whose every call succeeds. -/
def okSink : Sink where
  post_to_channel := fun _ _ => Except.ok (some "1700000000.000100")
  post_to_thread := fun _ _ _ => Except.ok (some "1700000000.000200")
  edit_message := fun _ _ _ => Except.ok ()

def envOk : Env :=
  { device_name := "printer1", cfg_channel := some "prints", sink := okSink }

def envFail : Env :=
  { envOk with sink := failingSink (SlackErr.api "boom") }

/-- A snapshot the job state machine ignores (`gcode_state` unknown). -/
def noopReport : BambuStatusReport := {}

/-- A running snapshot with a remaining time. -/
def runningReport : BambuStatusReport :=
  { gcode_state := some "RUNNING", mc_remaining_time := some 60 }

/-- A running snapshot with the remaining-time field absent. -/
def runningNoTimeReport : BambuStatusReport :=
  { gcode_state := some "RUNNING" }

def pausedJob0 : PrintJob :=
  { duration := 60, state := JobState.PAUSED }

/-- A JSON patch whose `lights_report` item has no `"node"` key. -/
def patchNoNode : J :=
  J.obj [("print", J.obj [("lights_report", J.arr [J.obj [("mode", J.str "off")]])])]

/-- The attrs field names of `BambuStatusReport` (the keys the structural
decoder reads). -/
def reportFieldNames : List String :=
  ["ams", "aux_part_fan", "bed_target_temper", "bed_temper", "big_fan1_speed",
   "big_fan2_speed", "chamber_temper", "cooling_fan_speed", "fail_reason",
   "fan_gear", "gcode_file_prepare_percent", "gcode_start_time", "gcode_state",
   "heatbreak_fan_speed", "layer_num", "lights_report", "mc_percent",
   "mc_print_error_code", "mc_print_stage", "mc_print_sub_stage",
   "mc_remaining_time", "nozzle_target_temper", "nozzle_temper", "print_error",
   "print_gcode_action", "print_real_action", "print_type", "queue_number",
   "sdcard", "total_layer_num", "upload"]

/-- Does a `savedState` event occur before the next `processed` event (or
never again a `processed` without one)? -/
def savedBeforeNext : List MonEvent → Bool
  | [] => false
  | MonEvent.savedState :: _ => true
  | MonEvent.processed _ :: _ => false
  | MonEvent.loggedError :: rest => savedBeforeNext rest

/-- The trace property "the state is written after every processed
snapshot, before the next snapshot is consumed". -/
def saveAfterEveryProcessed : List MonEvent → Bool
  | [] => true
  | MonEvent.processed _ :: rest => savedBeforeNext rest && saveAfterEveryProcessed rest
  | _ :: rest => saveAfterEveryProcessed rest

/-! ## Properties of the ingest rounding -/

theorem pyRound_intCast (n : ℤ) : pyRound ((n : ℚ)) = n := by
  simp only [pyRound, Int.floor_intCast, sub_self]
  norm_num

/-- C3 counterexample: `_round_int` is not round-half-up (`5/2` goes to
2, not to the larger integer 3), and wire ingest of a temperature is not
even nearest-rounding: the cattrs `int()` coercion runs before the attrs
converter, so `3.5` ingests as 3 (half-up would give 4) and `2.7`
ingests as 2 (the nearest integer is 3). -/
theorem c3_counterexample :
    Int.fract ((5 : ℚ)/2) = 1/2 ∧
    _round_int (some ((5 : ℚ)/2)) = some 2 ∧
    _round_int (some ((5 : ℚ)/2)) ≠ some 3 ∧
    decodeTemper (some (J.num ((7 : ℚ)/2))) = Except.ok (some 3) ∧
    decodeTemper (some (J.num ((27 : ℚ)/10))) = Except.ok (some 2) := by
  have hf : ⌊(5 : ℚ)/2⌋ = 2 := by
    rw [Int.floor_eq_iff]
    norm_num
  have hfr : Int.fract ((5 : ℚ)/2) = 1/2 := by
    rw [Int.fract, hf]
    norm_num
  have hp : pyRound ((5 : ℚ)/2) = 2 := by
    simp only [pyRound, hf]
    norm_num
  have h72 : intOfPy ((7 : ℚ)/2) = 3 := by
    simp only [intOfPy]
    rw [if_neg (by norm_num), Int.floor_eq_iff]
    norm_num
  have h27 : intOfPy ((27 : ℚ)/10) = 2 := by
    simp only [intOfPy]
    rw [if_neg (by norm_num), Int.floor_eq_iff]
    norm_num
  refine ⟨hfr, ?_, ?_, ?_, ?_⟩
  · show some (pyRound ((5 : ℚ)/2)) = some 2
    rw [hp]
  · show some (pyRound ((5 : ℚ)/2)) ≠ some 3
    rw [hp]
    simp
  · show Except.ok (_round_int (some ((intOfPy ((7 : ℚ)/2) : ℤ) : ℚ))) =
      Except.ok (some 3)
    rw [h72]
    show Except.ok (some (pyRound ((3 : ℤ) : ℚ))) = Except.ok (some 3)
    rw [pyRound_intCast]
  · show Except.ok (_round_int (some ((intOfPy ((27 : ℚ)/10) : ℤ) : ℚ))) =
      Except.ok (some 2)
    rw [h27]
    show Except.ok (some (pyRound ((2 : ℤ) : ℚ))) = Except.ok (some 2)
    rw [pyRound_intCast]

/-- C3 (amended): wire ingest of the bed/nozzle temperature *truncates
toward zero* — the default cattrs converter structures the `int | None`
annotation with Python `int()` before the attrs converter runs, and
`_round_int` leaves the already-integral result unchanged.  The
`_round_int` converter itself, which only sees a raw float on direct
construction, rounds to the nearest integer with ties to the *even*
neighbour (Python `round`), never half-up. -/
theorem c3_ingest_truncation_and_half_even :
    (∀ q : ℚ, decodeTemper (some (J.num q)) = Except.ok (some (intOfPy q))) ∧
    (∀ q : ℚ, 0 ≤ q → intOfPy q = ⌊q⌋) ∧
    (∀ q : ℚ, q < 0 → intOfPy q = ⌈q⌉) ∧
    (∀ q : ℚ, |q - (pyRound q : ℚ)| ≤ 1/2) ∧
    (∀ (q : ℚ) (n : ℤ), |q - (n : ℚ)| < 1/2 → pyRound q = n) ∧
    (∀ q : ℚ, Int.fract q = 1/2 → pyRound q % 2 = 0) := by
  have key : ∀ q : ℚ, |q - (pyRound q : ℚ)| ≤ 1/2 := by
    intro q
    have h0 : (⌊q⌋ : ℚ) ≤ q := Int.floor_le q
    have h1 : q < ⌊q⌋ + 1 := Int.lt_floor_add_one q
    simp only [pyRound]
    split_ifs with hlt hgt hev
    · rw [abs_of_nonneg (by linarith)]
      linarith
    · rw [abs_of_nonpos (by push_cast; linarith)]
      push_cast
      linarith
    · rw [abs_of_nonneg (by linarith)]
      linarith
    · rw [abs_of_nonpos (by push_cast; linarith)]
      push_cast
      linarith
  refine ⟨?_, ?_, ?_, key, ?_, ?_⟩
  · intro q
    show Except.ok (_round_int (some ((intOfPy q : ℤ) : ℚ))) =
      Except.ok (some (intOfPy q))
    show Except.ok (some (pyRound ((intOfPy q : ℤ) : ℚ))) =
      Except.ok (some (intOfPy q))
    rw [pyRound_intCast]
  · intro q h
    simp only [intOfPy]
    rw [if_neg (not_lt.mpr h)]
  · intro q h
    simp only [intOfPy]
    rw [if_pos h]
  · intro q n h
    have h2 := key q
    have h3 : |(pyRound q : ℚ) - (n : ℚ)| < 1 := by
      calc |(pyRound q : ℚ) - (n : ℚ)|
          ≤ |(pyRound q : ℚ) - q| + |q - (n : ℚ)| := abs_sub_le _ _ _
        _ = |q - (pyRound q : ℚ)| + |q - (n : ℚ)| := by rw [abs_sub_comm]
        _ < 1 := by linarith
    have h4 : |pyRound q - n| < (1 : ℤ) := by
      have : ((|pyRound q - n| : ℤ) : ℚ) < 1 := by
        rw [Int.cast_abs]
        push_cast
        exact h3
      exact_mod_cast this
    have h5 := Int.abs_lt_one_iff.mp h4
    omega
  · intro q h
    have hr : q - (⌊q⌋ : ℚ) = 1/2 := h
    simp only [pyRound]
    split_ifs with hlt hgt hev
    · linarith
    · linarith
    · exact hev
    · omega

/-! ## Properties of the list-merge strategy -/

/-- C4: for every path other than `["print", "lights_report"]`, a
non-empty patch list replaces the base list wholesale, while an empty
patch list keeps the base list (empty means "no change", not "clear"). -/
theorem c4_plain_list_merge (path : List String) (b n : List J)
    (h : path ≠ ["print", "lights_report"]) :
    mergeJ path (J.arr b) (J.arr n) =
      Except.ok (if n.isEmpty then J.arr b else J.arr n) := by
  rw [mergeJ]
  simp only [_custom_list_merge, if_neg h]
  split <;> rfl

/-- C4 witness: a concrete plain list field path; a non-empty patch list
replaces, an empty patch list preserves. -/
theorem c4_plain_list_merge_witness :
    mergeJ ["print", "ams"] (J.arr [J.str "a"]) (J.arr [J.str "b"]) =
      Except.ok (J.arr [J.str "b"]) ∧
    mergeJ ["print", "ams"] (J.arr [J.str "a"]) (J.arr []) =
      Except.ok (J.arr [J.str "a"]) := by
  have h1 := c4_plain_list_merge ["print", "ams"] [J.str "a"] [J.str "b"] (by decide)
  have h2 := c4_plain_list_merge ["print", "ams"] [J.str "a"] [] (by decide)
  exact ⟨by simpa using h1, by simpa using h2⟩

/-! ## The subscriber queues are unbounded -/

set_option maxRecDepth 8000 in
/-- C1 (the code, evaluated at the failing input): `subscribe()` creates
its queue as `Queue()` — `maxsize = 0`, i.e. *unbounded*, not a fixed
small capacity bound.  Publishing 100 snapshots to a subscriber that
never consumes stores all 100 (`put_nowait` never raises `QueueFull` on
an unbounded queue, so the drop-with-warning branch is unreachable and
the queue grows without bound). -/
theorem c1_queue_unbounded_eval :
    findQueue (runConn {} [ConnEvent.subscribe 0]) 0 =
      some { maxsize := 0, items := [], dropped := 0 } ∧
    findQueue (runConn {}
        (ConnEvent.subscribe 0 ::
          List.replicate 100 (ConnEvent.message 0 (Payload.valid (J.obj []))))) 0 =
      some { maxsize := 0, items := List.replicate 100 {}, dropped := 0 } := by
  exact ⟨rfl, by decide⟩

/-! ## When the job state file is written -/

/-- C2 counterexample: a run over two snapshots writes the state file
once, after the loop — not between the first and the second snapshot, so
the claimed "write after each snapshot before the next is consumed" trace
property is violated by this concrete run. -/
theorem c2_counterexample :
    monitor_printer_status envOk {} [(0, noopReport), (1, noopReport)] =
      ({}, [MonEvent.processed noopReport, MonEvent.processed noopReport,
            MonEvent.savedState]) ∧
    saveAfterEveryProcessed
        [MonEvent.processed noopReport, MonEvent.processed noopReport,
         MonEvent.savedState] = false := by
  exact ⟨rfl, rfl⟩

/-- C2 (amended): the per-device state is written exactly once, by the
`finally` when the snapshot loop exits — after all processed snapshots,
on normal end, error exit (then followed by the top-level error log) and
cancellation alike — not after each snapshot. -/
theorem c2_state_saved_once_at_exit (env : Env) (init : PrinterState)
    (reports : List (ℤ × BambuStatusReport)) :
    ∃ rs : List BambuStatusReport, ∃ tail : List MonEvent,
      (monitor_printer_status env init reports).2 =
        rs.map MonEvent.processed ++ [MonEvent.savedState] ++ tail ∧
      (tail = [] ∨ tail = [MonEvent.loggedError]) := by
  have shape : ∀ (rs : List (ℤ × BambuStatusReport)) (st : PrinterState),
      ∃ l : List BambuStatusReport,
        (runReports env st rs).2.1 = l.map MonEvent.processed := by
    intro rs
    induction rs with
    | nil => intro st; exact ⟨[], rfl⟩
    | cons hd tl ih =>
        intro st
        obtain ⟨now, r⟩ := hd
        simp only [runReports]
        cases hpr : processReport env now st r with
        | ok res =>
            obtain ⟨l, hl⟩ := ih res.1
            refine ⟨r :: l, ?_⟩
            simp [hl]
        | error e => exact ⟨[r], rfl⟩
  obtain ⟨l, hl⟩ := shape reports init
  cases herr : (runReports env init reports).2.2 with
  | none =>
      refine ⟨l, [], ?_, Or.inl rfl⟩
      simp [monitor_printer_status, hl, herr]
  | some e =>
      refine ⟨l, [MonEvent.loggedError], ?_, Or.inr rfl⟩
      simp [monitor_printer_status, hl, herr]

/-! ## Missing remaining time on start/resume -/

/-- C10: with no job (resp. a paused job), a snapshot with
`gcode_state = "RUNNING"` but no `mc_remaining_time` makes the start
(resp. resume) handler fail its assertion; the error escapes the snapshot
loop, the state machine stops consuming further snapshots, the state file
is still saved by the `finally`, and the top-level handler logs the
error. -/
theorem c10_missing_remaining_time_asserts (env : Env) (now : ℤ)
    (st : PrinterState) (r : BambuStatusReport) (job : PrintJob)
    (h1 : st.current_job = none) (h2 : r.gcode_state = some "RUNNING")
    (h3 : r.mc_remaining_time = none) (h4 : job.state = JobState.PAUSED) :
    processReport env now st r = Except.error JobErr.assertionError ∧
    processReport env now { current_job := some job } r =
      Except.error JobErr.assertionError ∧
    ∀ rest, monitor_printer_status env st ((now, r) :: rest) =
      (st, [MonEvent.processed r, MonEvent.savedState, MonEvent.loggedError]) := by
  have hstart : processReport env now st r = Except.error JobErr.assertionError := by
    simp [processReport, h1, h2, _job_started, h3]
  refine ⟨hstart, ?_, ?_⟩
  · simp [processReport, h2, h4, _job_resumed, h3]
  · intro rest
    simp [monitor_printer_status, runReports, hstart]

/-- C10 witness: the concrete bad snapshot stops a concrete run. -/
theorem c10_witness :
    processReport envOk 0 {} runningNoTimeReport =
      Except.error JobErr.assertionError ∧
    processReport envOk 0 { current_job := some pausedJob0 } runningNoTimeReport =
      Except.error JobErr.assertionError ∧
    monitor_printer_status envOk {} [(0, runningNoTimeReport), (1, runningReport)] =
      ({}, [MonEvent.processed runningNoTimeReport, MonEvent.savedState,
            MonEvent.loggedError]) := by
  have h := c10_missing_remaining_time_asserts envOk 0 {} runningNoTimeReport
    pausedJob0 rfl rfl rfl rfl
  exact ⟨h.1, h.2.1, h.2.2 [(1, runningReport)]⟩

/-! ## Notification failures are best-effort -/

theorem startMessageOf_sink (env : Env) (s : Sink) (now rem : ℤ) :
    startMessageOf { env with sink := s } now rem = startMessageOf env now rem := rfl

/-- C9 counterexample: when every sink call fails, the job created by the
start transition is *not* identical to the one created on notification
success: `slack_channel` and `slack_thread_ts` stay unset (they can only
come from the sink's reply), so the state is not "updated exactly as it
would be on notification success". -/
theorem c9_counterexample :
    okStateOf (processReport envFail 0 {} runningReport) ≠
      okStateOf (processReport envOk 0 {} runningReport) ∧
    (okStateOf (processReport envFail 0 {} runningReport)).map
        (fun s => s.current_job.map (fun j => j.slack_thread_ts)) =
      some (some none) ∧
    (okStateOf (processReport envOk 0 {} runningReport)).map
        (fun s => s.current_job.map (fun j => j.slack_thread_ts)) =
      some (some (some "1700000000.000100")) := by
  refine ⟨by decide, rfl, rfl⟩

/-- C9 (amended): when every sink call raises a classified API error the
state machine raises exactly when it would have raised anyway (the
assertion errors, which do not depend on the sink), the in-memory
transition of `current_job` is preserved — equal to the success outcome
once the two notification-handle fields (`slack_channel`,
`slack_thread_ts`), which only the sink's reply can fill during the start
transition, are erased — and on the start transition the posting failure
is logged. -/
theorem c9_best_effort_notifications (e : SlackErr) (env : Env) (now : ℤ)
    (st : PrinterState) (r : BambuStatusReport) :
    errOf (processReport { env with sink := failingSink e } now st r) =
      errOf (processReport env now st r) ∧
    (okStateOf (processReport { env with sink := failingSink e } now st r)).map
        eraseSlackState =
      (okStateOf (processReport env now st r)).map eraseSlackState ∧
    (∀ rem, st.current_job = none → r.gcode_state = some "RUNNING" →
      r.mc_remaining_time = some rem →
      logsOf (processReport { env with sink := failingSink e } now st r) =
        some [LogEvent.failedNotifyChannel e]) := by
  refine ⟨?_, ?_, ?_⟩
  case refine_3 =>
    intro rem h1 h2 h3
    simp [processReport, h1, h2, _job_started, h3, failingSink, logsOf]
  all_goals
    cases hc : st.current_job with
    | none =>
        cases hg : r.gcode_state with
        | none => simp [processReport, hc, hg, errOf, okStateOf]
        | some g =>
            by_cases hR : g = "RUNNING"
            · subst hR
              cases hmc : r.mc_remaining_time with
              | none =>
                  simp [processReport, hc, hg, _job_started, hmc, failingSink,
                    errOf, okStateOf]
              | some rem =>
                  cases hpost : env.sink.post_to_channel env.cfg_channel
                      (":progress_bar: " ++ startMessageOf env now rem) with
                  | ok ts =>
                      simp [processReport, hc, hg, _job_started, hmc, failingSink,
                        hpost, errOf, okStateOf, eraseSlackState, eraseSlackJob,
                        startMessageOf_sink]
                  | error e2 =>
                      simp [processReport, hc, hg, _job_started, hmc, failingSink,
                        hpost, errOf, okStateOf, eraseSlackState, eraseSlackJob,
                        startMessageOf_sink]
            · simp [processReport, hc, hg, hR, errOf, okStateOf]
    | some job =>
        cases hg : r.gcode_state with
        | none => simp [processReport, hc, hg, errOf, okStateOf]
        | some g =>
            by_cases hP : g = "PAUSE"
            · subst hP
              by_cases hjs : job.state = JobState.RUNNING
              · simp [processReport, hc, hg, hjs, _job_paused, errOf, okStateOf,
                  eraseSlackState, eraseSlackJob]
              · simp [processReport, hc, hg, hjs, errOf, okStateOf]
            · by_cases hRun : g = "RUNNING"
              · subst hRun
                by_cases hjs : job.state = JobState.PAUSED
                · cases hmc : r.mc_remaining_time with
                  | none =>
                      simp [processReport, hc, hg, hP, hjs, _job_resumed, hmc,
                        errOf, okStateOf]
                  | some rem =>
                      simp [processReport, hc, hg, hP, hjs, _job_resumed, hmc,
                        errOf, okStateOf, eraseSlackState, eraseSlackJob]
                · simp [processReport, hc, hg, hP, hjs, errOf, okStateOf]
              · by_cases hF : g = "FINISH"
                · simp [processReport, hc, hg, hP, hRun, hF, _job_completed,
                    errOf, okStateOf, eraseSlackState]
                · by_cases hFa : g = "FAILED"
                  · cases hpe : r.print_error with
                    | none =>
                        simp [processReport, hc, hg, hP, hRun, hF, hFa, _job_failed,
                          hpe, errOf, okStateOf, eraseSlackState]
                    | some c =>
                        by_cases hmem : c ∈ CANCELLED_ERROR_CODES
                        · simp [processReport, hc, hg, hP, hRun, hF, hFa, _job_failed,
                            hpe, hmem, errOf, okStateOf, eraseSlackState]
                        · simp [processReport, hc, hg, hP, hRun, hF, hFa, _job_failed,
                            hpe, hmem, errOf, okStateOf, eraseSlackState]
                  · by_cases hI : g = "IDLE"
                    · simp [processReport, hc, hg, hP, hRun, hF, hFa, hI,
                        _job_tracking_lost, errOf, okStateOf, eraseSlackState]
                    · simp [processReport, hc, hg, hP, hRun, hF, hFa, hI,
                        errOf, okStateOf]

/-! ## The cache reflects the merge of the successfully parsed patches -/

/-- C8: a message whose parse or merge fails leaves the connection state
exactly unchanged (cache untouched, nothing pushed to any subscriber); a
successfully parsed message atomically replaces the cached snapshot with
the merge result and pushes exactly that snapshot to every registered
queue; and over any event sequence the cached snapshot equals the pure
fold of the successfully parsed patches, in arrival order, over the
snapshot loaded at the start — independent of subscription activity. -/
theorem c8_cache_merge_invariant :
    (∀ (st : ConnState) (now : ℤ) (p : Payload),
      _parse_payload st.cache.print p = none →
      connStep st (ConnEvent.message now p) = st) ∧
    (∀ (st : ConnState) (now : ℤ) (p : Payload) (w : BambuWrapper),
      _parse_payload st.cache.print p = some w →
      connStep st (ConnEvent.message now p) =
        { cache := { print := some w.print, last_update := some now,
                     last_full_update := st.cache.last_full_update },
          queues := st.queues.map (fun q => (q.1, put_nowait q.2 w.print)) }) ∧
    (∀ (st : ConnState) (evs : List ConnEvent),
      (runConn st evs).cache.print = snapshotFold st.cache.print (payloadsOf evs)) := by
  refine ⟨?_, ?_, ?_⟩
  · intro st now p h
    simp [connStep, h]
  · intro st now p w h
    simp [connStep, h]
  · intro st evs
    induction evs generalizing st with
    | nil => rfl
    | cons ev rest ih =>
        cases ev with
        | subscribe i =>
            simpa [runConn, connStep, payloadsOf] using ih { st with queues := st.queues ++ [(i, {})] }
        | unsubscribe i =>
            simpa [runConn, connStep, payloadsOf] using ih { st with queues := removeQueue st.queues i }
        | message now p =>
            cases hp : _parse_payload st.cache.print p with
            | none =>
                have h2 := ih st
                simp only [runConn, List.foldl_cons] at h2 ⊢
                rw [show connStep st (ConnEvent.message now p) = st by simp [connStep, hp]]
                rw [h2]
                simp [payloadsOf, snapshotFold, hp]
            | some w =>
                have h2 := ih (connStep st (ConnEvent.message now p))
                simp only [runConn, List.foldl_cons] at h2 ⊢
                rw [h2]
                simp [connStep, hp, payloadsOf, snapshotFold]

/-- C8 witness: a failing payload leaves a concrete state untouched, and
a concrete mixed run of valid and invalid messages reconstructs the
fold. -/
theorem c8_cache_merge_invariant_witness :
    connStep { cache := { print := some {} }, queues := [(0, {})] }
        (ConnEvent.message 5 Payload.invalid) =
      { cache := { print := some {} }, queues := [(0, {})] } ∧
    (runConn {} [ConnEvent.subscribe 0, ConnEvent.message 0 (Payload.valid (J.obj [])),
        ConnEvent.message 1 Payload.invalid]).cache.print =
      snapshotFold none [Payload.valid (J.obj []), Payload.invalid] := by
  have h := c8_cache_merge_invariant
  refine ⟨h.1 _ 5 Payload.invalid rfl, ?_⟩
  have h2 := h.2.2 {} [ConnEvent.subscribe 0,
    ConnEvent.message 0 (Payload.valid (J.obj [])), ConnEvent.message 1 Payload.invalid]
  exact h2

/-! ## Merge failures are contained; unknown fields are ignored -/

/-- C6 counterexample: with a cached snapshot present, the JSON-accepted
patch `{"print": {"lights_report": [{"mode": "off"}]}}` (an item without
a `"node"` key) makes the merge raise `KeyError` — merging can fail on
patches that JSON parsing accepted.  `_parse_payload` catches it and
returns `None`. -/
theorem c6_counterexample :
    mergeJ [] (oldDict (some {})) patchNoNode = Except.error "KeyError: node" ∧
    _parse_payload (some {}) (Payload.valid patchNoNode) = none := ⟨rfl, rfl⟩

theorem getKey_append_ne (fs : List (String × J)) (k k1 : String) (v : J)
    (h : k1 ≠ k) : getKey (fs ++ [(k, v)]) k1 = getKey fs k1 := by
  induction fs with
  | nil =>
      show (if k = k1 then some v else getKey [] k1) = none
      rw [if_neg (fun hh => h hh.symm)]
      rfl
  | cons hd tl ih =>
      simp only [List.cons_append, getKey]
      split <;> simp [ih]

theorem structureReport_key_congr (fs fs' : List (String × J))
    (h : ∀ key ∈ reportFieldNames, getKey fs key = getKey fs' key) :
    structureReport (J.obj fs) = structureReport (J.obj fs') := by
  have h1 := h "ams" (by decide)
  have h2 := h "aux_part_fan" (by decide)
  have h3 := h "bed_target_temper" (by decide)
  have h4 := h "bed_temper" (by decide)
  have h5 := h "big_fan1_speed" (by decide)
  have h6 := h "big_fan2_speed" (by decide)
  have h7 := h "chamber_temper" (by decide)
  have h8 := h "cooling_fan_speed" (by decide)
  have h9 := h "fail_reason" (by decide)
  have h10 := h "fan_gear" (by decide)
  have h11 := h "gcode_file_prepare_percent" (by decide)
  have h12 := h "gcode_start_time" (by decide)
  have h13 := h "gcode_state" (by decide)
  have h14 := h "heatbreak_fan_speed" (by decide)
  have h15 := h "layer_num" (by decide)
  have h16 := h "lights_report" (by decide)
  have h17 := h "mc_percent" (by decide)
  have h18 := h "mc_print_error_code" (by decide)
  have h19 := h "mc_print_stage" (by decide)
  have h20 := h "mc_print_sub_stage" (by decide)
  have h21 := h "mc_remaining_time" (by decide)
  have h22 := h "nozzle_target_temper" (by decide)
  have h23 := h "nozzle_temper" (by decide)
  have h24 := h "print_error" (by decide)
  have h25 := h "print_gcode_action" (by decide)
  have h26 := h "print_real_action" (by decide)
  have h27 := h "print_type" (by decide)
  have h28 := h "queue_number" (by decide)
  have h29 := h "sdcard" (by decide)
  have h30 := h "total_layer_num" (by decide)
  have h31 := h "upload" (by decide)
  simp only [structureReport, h1, h2, h3, h4, h5, h6, h7, h8, h9, h10, h11, h12,
    h13, h14, h15, h16, h17, h18, h19, h20, h21, h22, h23, h24, h25, h26, h27,
    h28, h29, h30, h31]

/-- C6 (amended): the structural decoder ignores unknown patch fields,
and the failures the merge *can* produce on JSON-accepted patches (such
as a `lights_report` item without a `"node"` key) are all caught by
`_parse_payload`, which logs and returns `None` — the message is dropped
and nothing is raised further. -/
theorem c6_unknown_ignored_failures_contained :
    (∀ (fs : List (String × J)) (k : String) (v : J), k ∉ reportFieldNames →
      structureReport (J.obj (fs ++ [(k, v)])) = structureReport (J.obj fs)) ∧
    (∀ (c : Option BambuStatusReport) (j : J),
      (mergeJ [] (oldDict c) j).isOk = false →
      _parse_payload c (Payload.valid j) = none) := by
  constructor
  · intro fs k v hk
    refine structureReport_key_congr _ _ (fun key hkey => ?_)
    exact getKey_append_ne fs k key v (fun he => hk (he ▸ hkey))
  · intro c j h
    simp only [_parse_payload]
    cases hm : mergeJ [] (oldDict c) j with
    | error e => rfl
    | ok m =>
        rw [hm] at h
        simp [Except.isOk, Except.toBool] at h

/-- C6 witness: an unknown field appended to a patch object does not
change the decode, and the counterexample patch is dropped without a
raise. -/
theorem c6_unknown_ignored_witness :
    structureReport (J.obj ([("gcode_state", J.str "IDLE")] ++
        [("wifi_signal", J.str "strong")])) =
      structureReport (J.obj [("gcode_state", J.str "IDLE")]) ∧
    _parse_payload (some {}) (Payload.valid patchNoNode) = none := by
  have h := c6_unknown_ignored_failures_contained
  exact ⟨h.1 [("gcode_state", J.str "IDLE")] "wifi_signal" (J.str "strong") (by decide),
    h.2 (some {}) patchNoNode rfl⟩

/-- C3 witness: concrete instances — ingest of 7/2 is the truncation
(equated with `intOfPy` by the theorem), the converter itself sends the
tie 7/2 to the even neighbour, and 2.1 rounds to the nearest 2. -/
theorem c3_ingest_truncation_and_half_even_witness :
    decodeTemper (some (J.num ((7 : ℚ)/2))) =
      Except.ok (some (intOfPy ((7 : ℚ)/2))) ∧
    pyRound ((7 : ℚ)/2) % 2 = 0 ∧
    pyRound ((21 : ℚ)/10) = 2 := by
  have h := c3_ingest_truncation_and_half_even
  refine ⟨h.1 ((7 : ℚ)/2), ?_, ?_⟩
  · refine h.2.2.2.2.2 ((7 : ℚ)/2) ?_
    have hf : ⌊(7 : ℚ)/2⌋ = 3 := by
      rw [Int.floor_eq_iff]
      norm_num
    rw [Int.fract, hf]
    norm_num
  · refine h.2.2.2.2.1 ((21 : ℚ)/10) 2 ?_
    rw [show (21 : ℚ)/10 - ((2 : ℤ) : ℚ) = 1/10 by push_cast; ring]
    rw [abs_of_nonneg (by norm_num)]
    norm_num

/-- C9 witness: the concrete failing start transition is logged, raises
nothing the successful run would not raise, and agrees with the
successful run after erasing the thread-handle fields. -/
theorem c9_best_effort_notifications_witness :
    logsOf (processReport envFail 0 {} runningReport) =
      some [LogEvent.failedNotifyChannel (SlackErr.api "boom")] ∧
    errOf (processReport envFail 0 {} runningReport) =
      errOf (processReport envOk 0 {} runningReport) ∧
    (okStateOf (processReport envFail 0 {} runningReport)).map eraseSlackState =
      (okStateOf (processReport envOk 0 {} runningReport)).map eraseSlackState := by
  have h := c9_best_effort_notifications (SlackErr.api "boom") envOk 0 {} runningReport
  exact ⟨h.2.2 60 rfl rfl rfl, h.1, h.2.1⟩

/-! ## Subscription windows: helper lemmas on the queue list -/

theorem qfind_append_some (qs qs2 : List (ℕ × SQueue)) (i : ℕ) (x : ℕ × SQueue)
    (h : qs.find? (fun q => q.1 = i) = some x) :
    (qs ++ qs2).find? (fun q => q.1 = i) = some x := by
  rw [List.find?_append, h]
  rfl

theorem qfind_append_none (qs qs2 : List (ℕ × SQueue)) (i : ℕ)
    (h : qs.find? (fun q => q.1 = i) = none) :
    (qs ++ qs2).find? (fun q => q.1 = i) = qs2.find? (fun q => q.1 = i) := by
  rw [List.find?_append, h]
  rfl

theorem qfind_map (qs : List (ℕ × SQueue)) (i : ℕ) (f : SQueue → SQueue) :
    (qs.map (fun q => (q.1, f q.2))).find? (fun q => q.1 = i) =
      (qs.find? (fun q => q.1 = i)).map (fun q => (q.1, f q.2)) := by
  rw [List.find?_map]
  rfl

theorem qcount_map (qs : List (ℕ × SQueue)) (i : ℕ) (f : SQueue → SQueue) :
    (qs.map (fun q => (q.1, f q.2))).countP (fun q => q.1 = i) =
      qs.countP (fun q => q.1 = i) := by
  rw [List.countP_map]
  rfl

theorem qfind_none_iff_count (qs : List (ℕ × SQueue)) (i : ℕ) :
    qs.find? (fun q => q.1 = i) = none ↔ qs.countP (fun q => q.1 = i) = 0 := by
  rw [List.find?_eq_none, List.countP_eq_zero]

theorem removeQueue_find_ne (qs : List (ℕ × SQueue)) (i j : ℕ) (h : j ≠ i) :
    (removeQueue qs j).find? (fun q => q.1 = i) = qs.find? (fun q => q.1 = i) := by
  induction qs with
  | nil => rfl
  | cons hd tl ih =>
      simp only [removeQueue]
      by_cases hj : hd.1 = j
      · rw [if_pos hj, List.find?_cons_of_neg tl (by simp [hj, h])]
      · rw [if_neg hj]
        by_cases hpi : hd.1 = i
        · rw [List.find?_cons_of_pos (removeQueue tl j) (by simp [hpi]),
            List.find?_cons_of_pos tl (by simp [hpi])]
        · rw [List.find?_cons_of_neg (removeQueue tl j) (by simp [hpi]),
            List.find?_cons_of_neg tl (by simp [hpi])]
          exact ih

theorem removeQueue_countP_ne (qs : List (ℕ × SQueue)) (i j : ℕ) (h : j ≠ i) :
    (removeQueue qs j).countP (fun q => q.1 = i) = qs.countP (fun q => q.1 = i) := by
  induction qs with
  | nil => rfl
  | cons hd tl ih =>
      simp only [removeQueue]
      by_cases hj : hd.1 = j
      · rw [if_pos hj, List.countP_cons_of_neg _ tl (by simp [hj, h])]
      · rw [if_neg hj, List.countP_cons, List.countP_cons, ih]

theorem removeQueue_countP_self (qs : List (ℕ × SQueue)) (i : ℕ)
    (h : qs.countP (fun q => q.1 = i) = 1) :
    (removeQueue qs i).countP (fun q => q.1 = i) = 0 := by
  induction qs with
  | nil => simp at h
  | cons hd tl ih =>
      simp only [removeQueue]
      by_cases hi : hd.1 = i
      · rw [List.countP_cons_of_pos _ tl (by simp [hi])] at h
        rw [if_pos hi]
        omega
      · rw [List.countP_cons_of_neg _ tl (by simp [hi])] at h
        rw [if_neg hi, List.countP_cons_of_neg _ _ (by simp [hi])]
        exact ih h

theorem runConn_count (i : ℕ) (evs : List ConnEvent) :
    ∀ st : ConnState, i ∉ touchedIds evs →
      (runConn st evs).queues.countP (fun q => q.1 = i) =
        st.queues.countP (fun q => q.1 = i) := by
  induction evs with
  | nil => intro st _; rfl
  | cons ev rest ih =>
      intro st htouch
      cases ev with
      | subscribe j =>
          have hj : j ≠ i := by
            simp [touchedIds] at htouch
            exact fun he => htouch.1 he.symm
          have hti : i ∉ touchedIds rest := by
            simp [touchedIds] at htouch
            exact htouch.2
          have h2 := ih { st with queues := st.queues ++ [(j, {})] } hti
          simp only [runConn, List.foldl_cons] at h2 ⊢
          rw [show connStep st (ConnEvent.subscribe j) =
            { st with queues := st.queues ++ [(j, {})] } from rfl]
          rw [h2, List.countP_append]
          simp [hj]
      | unsubscribe j =>
          have hj : j ≠ i := by
            simp [touchedIds] at htouch
            exact fun he => htouch.1 he.symm
          have hti : i ∉ touchedIds rest := by
            simp [touchedIds] at htouch
            exact htouch.2
          have h2 := ih { st with queues := removeQueue st.queues j } hti
          simp only [runConn, List.foldl_cons] at h2 ⊢
          rw [show connStep st (ConnEvent.unsubscribe j) =
            { st with queues := removeQueue st.queues j } from rfl]
          rw [h2, removeQueue_countP_ne st.queues i j hj]
      | message now p =>
          have hti : i ∉ touchedIds rest := by
            simpa [touchedIds] using htouch
          have h2 := ih (connStep st (ConnEvent.message now p)) hti
          simp only [runConn, List.foldl_cons] at h2 ⊢
          rw [h2]
          cases hp : _parse_payload st.cache.print p with
          | none => simp [connStep, hp]
          | some w =>
              simp only [connStep, hp]
              exact qcount_map st.queues i (fun q => put_nowait q w.print)

theorem runConn_registered (i : ℕ) (evs : List ConnEvent) :
    ∀ (st : ConnState) (x : ℕ × SQueue), i ∉ touchedIds evs → x.2.maxsize = 0 →
      st.queues.find? (fun q => q.1 = i) = some x →
      (runConn st evs).queues.find? (fun q => q.1 = i) =
        some (x.1, { maxsize := 0, items := x.2.items ++ broadcasts st evs,
                     dropped := x.2.dropped }) := by
  induction evs with
  | nil =>
      intro st x _ hms hf
      obtain ⟨xi, xq⟩ := x
      obtain ⟨ms, it, dr⟩ := xq
      simp only at hms
      subst hms
      simpa [runConn, broadcasts] using hf
  | cons ev rest ih =>
      intro st x htouch hms hf
      cases ev with
      | subscribe j =>
          have hti : i ∉ touchedIds rest := by
            simp [touchedIds] at htouch
            exact htouch.2
          have hf2 : ({ st with queues := st.queues ++ [(j, {})] } :
              ConnState).queues.find? (fun q => q.1 = i) = some x :=
            qfind_append_some st.queues [(j, {})] i x hf
          have h2 := ih { st with queues := st.queues ++ [(j, {})] } x hti hms hf2
          simp only [runConn, List.foldl_cons] at h2 ⊢
          rw [show connStep st (ConnEvent.subscribe j) =
            { st with queues := st.queues ++ [(j, {})] } from rfl]
          rw [h2]
          rfl
      | unsubscribe j =>
          have hj : j ≠ i := by
            simp [touchedIds] at htouch
            exact fun he => htouch.1 he.symm
          have hti : i ∉ touchedIds rest := by
            simp [touchedIds] at htouch
            exact htouch.2
          have hf2 : ({ st with queues := removeQueue st.queues j } :
              ConnState).queues.find? (fun q => q.1 = i) = some x := by
            rw [show ({ st with queues := removeQueue st.queues j } :
              ConnState).queues = removeQueue st.queues j from rfl]
            rw [removeQueue_find_ne st.queues i j hj]
            exact hf
          have h2 := ih { st with queues := removeQueue st.queues j } x hti hms hf2
          simp only [runConn, List.foldl_cons] at h2 ⊢
          rw [show connStep st (ConnEvent.unsubscribe j) =
            { st with queues := removeQueue st.queues j } from rfl]
          rw [h2]
          rfl
      | message now p =>
          have hti : i ∉ touchedIds rest := by
            simpa [touchedIds] using htouch
          cases hp : _parse_payload st.cache.print p with
          | none =>
              have hstep : connStep st (ConnEvent.message now p) = st := by
                simp [connStep, hp]
              have h2 := ih st x hti hms hf
              simp only [runConn, List.foldl_cons] at h2 ⊢
              rw [hstep, h2]
              simp [broadcasts, hp, hstep]
          | some w =>
              have hput : put_nowait x.2 w.print =
                  { maxsize := 0, items := x.2.items ++ [w.print],
                    dropped := x.2.dropped } := by
                obtain ⟨xi, xq⟩ := x
                obtain ⟨ms, it, dr⟩ := xq
                simp only at hms
                subst hms
                simp [put_nowait]
              have hf2 : (connStep st (ConnEvent.message now p)).queues.find?
                  (fun q => q.1 = i) =
                  some (x.1, { maxsize := 0, items := x.2.items ++ [w.print],
                               dropped := x.2.dropped }) := by
                simp only [connStep, hp]
                rw [qfind_map st.queues i (fun q => put_nowait q w.print), hf]
                simp [hput]
              have h2 := ih (connStep st (ConnEvent.message now p))
                (x.1, { maxsize := 0, items := x.2.items ++ [w.print],
                        dropped := x.2.dropped }) hti rfl hf2
              simp only [runConn, List.foldl_cons] at h2 ⊢
              rw [h2]
              simp [broadcasts, hp]

/-- C7: a subscription observes exactly the snapshots broadcast while it
is registered, in publish order: the queue appended by `subscribe()`
starts empty (no replay of anything published before registration), and
after running any id-disjoint event segment its contents are precisely
the broadcasts of that segment, with nothing dropped; once the scope
exits (`unsubscribe`), the queue is removed and nothing published later
reaches it.  (Observation = FIFO delivery: `_consume_queue` yields each
queued item exactly once, in order.) -/
theorem c7_subscription_window (st : ConnState) (i : ℕ)
    (pre mid post : List ConnEvent)
    (hfresh : findQueue (runConn st pre) i = none)
    (hmid : i ∉ touchedIds mid) (hpost : i ∉ touchedIds post) :
    findQueue (runConn st (pre ++ [ConnEvent.subscribe i] ++ mid)) i =
      some { maxsize := 0,
             items := broadcasts (runConn st (pre ++ [ConnEvent.subscribe i])) mid,
             dropped := 0 } ∧
    findQueue (runConn st
        (pre ++ [ConnEvent.subscribe i] ++ mid ++ [ConnEvent.unsubscribe i] ++ post)) i =
      none := by
  have hfind0 : (runConn st pre).queues.find? (fun q => q.1 = i) = none := by
    have : ((runConn st pre).queues.find? (fun q => q.1 = i)).map (fun q => q.2) = none :=
      hfresh
    cases hx : (runConn st pre).queues.find? (fun q => q.1 = i) with
    | none => rfl
    | some x => rw [hx] at this; simp at this
  have hrun1 : runConn st (pre ++ [ConnEvent.subscribe i]) =
      { runConn st pre with queues := (runConn st pre).queues ++ [(i, {})] } := by
    rw [runConn, List.foldl_append]
    rfl
  have hfind1 : (runConn st (pre ++ [ConnEvent.subscribe i])).queues.find?
      (fun q => q.1 = i) = some (i, {}) := by
    rw [hrun1]
    show ((runConn st pre).queues ++ [(i, ({} : SQueue))]).find? (fun q => q.1 = i) =
      some (i, ({} : SQueue))
    rw [qfind_append_none _ _ _ hfind0]
    simp [List.find?]
  have hmain := runConn_registered i mid
    (runConn st (pre ++ [ConnEvent.subscribe i])) (i, {}) hmid rfl hfind1
  constructor
  · have hsplit : runConn st (pre ++ [ConnEvent.subscribe i] ++ mid) =
        runConn (runConn st (pre ++ [ConnEvent.subscribe i])) mid := by
      rw [runConn, runConn, runConn, List.foldl_append]
    rw [hsplit]
    show ((runConn (runConn st (pre ++ [ConnEvent.subscribe i])) mid).queues.find?
      (fun q => q.1 = i)).map (fun q : ℕ × SQueue => q.2) = _
    rw [hmain]
    rfl
  · have hcount0 : (runConn st pre).queues.countP (fun q => q.1 = i) = 0 :=
      (qfind_none_iff_count _ _).mp hfind0
    have hcount1 : (runConn st (pre ++ [ConnEvent.subscribe i])).queues.countP
        (fun q => q.1 = i) = 1 := by
      rw [hrun1]
      show ((runConn st pre).queues ++ [(i, ({} : SQueue))]).countP (fun q => q.1 = i) = 1
      rw [List.countP_append, hcount0]
      simp
    have hcount2 : (runConn (runConn st (pre ++ [ConnEvent.subscribe i])) mid).queues.countP
        (fun q => q.1 = i) = 1 := by
      rw [runConn_count i mid _ hmid, hcount1]
    have hsplit2 : runConn st
        (pre ++ [ConnEvent.subscribe i] ++ mid ++ [ConnEvent.unsubscribe i] ++ post) =
        runConn (connStep (runConn (runConn st (pre ++ [ConnEvent.subscribe i])) mid)
          (ConnEvent.unsubscribe i)) post := by
      rw [runConn, List.foldl_append, List.foldl_append, List.foldl_append]
      rfl
    rw [hsplit2]
    have hcount3 : (connStep (runConn (runConn st (pre ++ [ConnEvent.subscribe i])) mid)
        (ConnEvent.unsubscribe i)).queues.countP (fun q => q.1 = i) = 0 := by
      show (removeQueue _ i).countP (fun q => q.1 = i) = 0
      exact removeQueue_countP_self _ i hcount2
    have hcount4 := runConn_count i post
      (connStep (runConn (runConn st (pre ++ [ConnEvent.subscribe i])) mid)
        (ConnEvent.unsubscribe i)) hpost
    rw [hcount3] at hcount4
    have hnone := (qfind_none_iff_count _ i).mpr hcount4
    show ((runConn (connStep (runConn (runConn st (pre ++ [ConnEvent.subscribe i])) mid)
      (ConnEvent.unsubscribe i)) post).queues.find? (fun q => q.1 = i)).map
        (fun q : ℕ × SQueue => q.2) = none
    rw [hnone]
    rfl

/-- C7 witness: a concrete run — one snapshot before the subscription
(not replayed), one during (delivered), one after the unsubscribe (not
delivered, the queue is gone). -/
theorem c7_subscription_window_witness :
    findQueue (runConn {} ([ConnEvent.message 0 (Payload.valid (J.obj []))] ++
        [ConnEvent.subscribe 7] ++ [ConnEvent.message 1 (Payload.valid (J.obj []))])) 7 =
      some { maxsize := 0,
             items := broadcasts (runConn {} ([ConnEvent.message 0 (Payload.valid (J.obj []))] ++
               [ConnEvent.subscribe 7])) [ConnEvent.message 1 (Payload.valid (J.obj []))],
             dropped := 0 } ∧
    findQueue (runConn {} ([ConnEvent.message 0 (Payload.valid (J.obj []))] ++
        [ConnEvent.subscribe 7] ++ [ConnEvent.message 1 (Payload.valid (J.obj []))] ++
        [ConnEvent.unsubscribe 7] ++ [ConnEvent.message 2 (Payload.valid (J.obj []))])) 7 =
      none :=
  c7_subscription_window {} 7 [ConnEvent.message 0 (Payload.valid (J.obj []))]
    [ConnEvent.message 1 (Payload.valid (J.obj []))]
    [ConnEvent.message 2 (Payload.valid (J.obj []))] rfl (by decide) (by decide)

/-! ## The keyed merge of the lights-report list -/

theorem exceptOkBind {α β : Type} (a : α) (f : α → Except String β) :
    (Except.ok a >>= f : Except String β) = f a := rfl

theorem upsertItem_not_mem (items : List (J × J)) (k v : J)
    (h : k ∉ items.map Prod.fst) : upsertItem items k v = items ++ [(k, v)] := by
  induction items with
  | nil => rfl
  | cons hd tl ih =>
      obtain ⟨k1, v1⟩ := hd
      simp only [List.map_cons, List.mem_cons, not_or] at h
      simp only [upsertItem]
      rw [if_neg (fun he => h.1 he.symm)]
      simp [ih h.2]

theorem upsertItem_mem_nodup (items : List (J × J)) (k v : J)
    (hmem : k ∈ items.map Prod.fst) (hnd : (items.map Prod.fst).Nodup) :
    upsertItem items k v = items.map (fun p => if p.1 = k then (k, v) else p) := by
  induction items with
  | nil => simp at hmem
  | cons hd tl ih =>
      obtain ⟨k1, v1⟩ := hd
      simp only [List.map_cons, List.mem_cons] at hmem
      have hnd2 := List.nodup_cons.mp hnd
      simp only [upsertItem]
      by_cases he : k1 = k
      · rw [if_pos he]
        subst he
        have hid : ∀ p ∈ tl, (if p.1 = k1 then ((k1 : J), v) else p) = p := by
          intro p hp
          have hmmem : p.1 ∈ tl.map Prod.fst := List.mem_map_of_mem Prod.fst hp
          exact if_neg (fun hh => hnd2.1 (by rw [← hh]; exact hmmem))
        simp only [List.map_cons, if_pos rfl]
        rw [List.map_congr_left hid]
        simp
      · rw [if_neg he]
        have hm2 : k ∈ tl.map Prod.fst := by
          cases hmem with
          | inl h0 => exact absurd h0.symm he
          | inr h1 => exact h1
        simp only [List.map_cons, if_neg he]
        rw [ih hm2 hnd2.2]

theorem upsertAll_base (b : List J) : ∀ (items : List (J × J)),
    (∀ x ∈ b, (nodeOfItem x).isOk = true) →
    (∀ x ∈ b, nodeD x ∉ items.map Prod.fst) →
    (keysOf b).Nodup →
    upsertAll items b = Except.ok (items ++ b.map (fun x => (nodeD x, x))) := by
  induction b with
  | nil =>
      intro items _ _ _
      simp [upsertAll]
  | cons x rest ih =>
      intro items hok hdis hnd
      have hxok := hok x (List.mem_cons_self x rest)
      cases hnode : nodeOfItem x with
      | error e =>
          rw [hnode] at hxok
          simp [Except.isOk, Except.toBool] at hxok
      | ok k =>
          have hkey : nodeD x = k := by simp [nodeD, hnode]
          have hnd2 := List.nodup_cons.mp
            (show ((nodeD x) :: (rest.map nodeD)).Nodup from hnd)
          have hstep : upsertAll items (x :: rest) =
              upsertAll (upsertItem items k x) rest := by
            simp only [upsertAll, hnode]
            rfl
          rw [hstep, upsertItem_not_mem items k x (hkey ▸ hdis x (List.mem_cons_self x rest))]
          have hdis2 : ∀ y ∈ rest, nodeD y ∉ (items ++ [(k, x)]).map Prod.fst := by
            intro y hy
            rw [List.map_append]
            simp only [List.map_cons, List.map_nil, List.mem_append, List.mem_cons,
              List.not_mem_nil, or_false, not_or]
            have hmmem : nodeD y ∈ rest.map nodeD := List.mem_map_of_mem nodeD hy
            refine ⟨hdis y (List.mem_cons_of_mem x hy), fun he => hnd2.1 ?_⟩
            rw [hkey, ← he]
            exact hmmem
          have ihh := ih (items ++ [(k, x)]) (fun y hy => hok y (List.mem_cons_of_mem x hy))
            hdis2 hnd2.2
          rw [ihh]
          simp [hkey, List.append_assoc]

theorem upsertAll_patch (n : List J) : ∀ (acc : List (J × J)),
    (∀ y ∈ n, (nodeOfItem y).isOk = true) →
    (keysOf n).Nodup →
    (acc.map Prod.fst).Nodup →
    upsertAll acc n =
      Except.ok (acc.map (substItem n) ++ newItems n (acc.map Prod.fst)) := by
  induction n with
  | nil =>
      intro acc _ _ _
      have hsub : acc.map (substItem []) = acc := by
        have h1 : ∀ p ∈ acc, substItem [] p = p := fun p _ => rfl
        rw [List.map_congr_left h1]
        exact List.map_id acc
      simp [upsertAll, newItems, hsub]
  | cons y rest ih =>
      intro acc hok hnd hand
      have hyok := hok y (List.mem_cons_self y rest)
      cases hnode : nodeOfItem y with
      | error e =>
          rw [hnode] at hyok
          simp [Except.isOk, Except.toBool] at hyok
      | ok k =>
          have hkey : nodeD y = k := by simp [nodeD, hnode]
          have hnd2 := List.nodup_cons.mp
            (show ((nodeD y) :: (rest.map nodeD)).Nodup from hnd)
          have hknr : ∀ z ∈ rest, nodeD z ≠ k := by
            intro z hz he
            have hmmem : nodeD z ∈ rest.map nodeD := List.mem_map_of_mem nodeD hz
            refine hnd2.1 ?_
            rw [hkey, ← he]
            exact hmmem
          have hfindr : ∀ kk : J, kk = k →
              rest.find? (fun z => nodeD z = kk) = none := by
            intro kk hkk
            rw [List.find?_eq_none]
            intro z hz
            simp [hkk, hknr z hz]
          have hstep : upsertAll acc (y :: rest) =
              upsertAll (upsertItem acc k y) rest := by
            simp only [upsertAll, hnode]
            rfl
          rw [hstep]
          have hokr : ∀ z ∈ rest, (nodeOfItem z).isOk = true :=
            fun z hz => hok z (List.mem_cons_of_mem y hz)
          have hndr : (keysOf rest).Nodup := hnd2.2
          by_cases hmem : k ∈ acc.map Prod.fst
          · rw [upsertItem_mem_nodup acc k y hmem hand]
            have hkeys : (acc.map (fun p => if p.1 = k then ((k : J), y) else p)).map
                Prod.fst = acc.map Prod.fst := by
              rw [List.map_map]
              refine List.map_congr_left (fun p hp => ?_)
              by_cases hpk : p.1 = k
              · simp [hpk]
              · simp [hpk]
            have ihh := ih (acc.map (fun p => if p.1 = k then ((k : J), y) else p))
              hokr hndr (by rw [hkeys]; exact hand)
            rw [ihh]
            have hA : (acc.map (fun p => if p.1 = k then ((k : J), y) else p)).map
                (substItem rest) = acc.map (substItem (y :: rest)) := by
              rw [List.map_map]
              refine List.map_congr_left (fun p hp => ?_)
              by_cases hpk : p.1 = k
              · show substItem rest (if p.1 = k then ((k : J), y) else p) = _
                rw [if_pos hpk]
                have h1 : substItem rest ((k : J), y) = (k, y) := by
                  simp only [substItem]
                  rw [hfindr k rfl]
                have h2 : substItem (y :: rest) p = (p.1, y) := by
                  simp only [substItem]
                  rw [List.find?_cons_of_pos rest (by simp [hkey, hpk])]
                rw [h1, h2, hpk]
              · show substItem rest (if p.1 = k then ((k : J), y) else p) = _
                rw [if_neg hpk]
                have h2 : substItem (y :: rest) p = substItem rest p := by
                  simp only [substItem]
                  rw [List.find?_cons_of_neg rest
                    (by simp [hkey]; exact fun hh => hpk hh.symm)]
                rw [h2]
            have hB : newItems rest ((acc.map (fun p => if p.1 = k then ((k : J), y)
                else p)).map Prod.fst) =
                newItems (y :: rest) (acc.map Prod.fst) := by
              rw [hkeys]
              simp only [newItems]
              rw [List.filter_cons_of_neg (by simp [hkey, hmem])]
            rw [hA, hB]
          · rw [upsertItem_not_mem acc k y hmem]
            have hand2 : ((acc ++ [(k, y)]).map Prod.fst).Nodup := by
              rw [List.map_append]
              refine List.Nodup.append hand (List.nodup_singleton k) ?_
              intro a ha hb
              simp only [List.map_cons, List.map_nil, List.mem_singleton] at hb
              subst hb
              exact hmem ha
            have ihh := ih (acc ++ [(k, y)]) hokr hndr hand2
            rw [ihh]
            have hA : (acc ++ [(k, y)]).map (substItem rest) =
                acc.map (substItem (y :: rest)) ++ [((k : J), y)] := by
              rw [List.map_append]
              have h1 : [((k : J), y)].map (substItem rest) = [((k : J), y)] := by
                simp only [List.map_cons, List.map_nil, substItem]
                rw [hfindr k rfl]
              have h2 : acc.map (substItem rest) = acc.map (substItem (y :: rest)) := by
                refine List.map_congr_left (fun p hp => ?_)
                have hpk : p.1 ≠ k := by
                  intro he
                  refine hmem ?_
                  rw [← he]
                  exact List.mem_map_of_mem Prod.fst hp
                simp only [substItem]
                rw [List.find?_cons_of_neg rest
                  (by simp [hkey]; exact fun hh => hpk hh.symm)]
              rw [h1, h2]
            have hB : newItems rest ((acc ++ [(k, y)]).map Prod.fst) =
                (rest.filter (fun z => decide (nodeD z ∉ acc.map Prod.fst))).map
                  (fun z => (nodeD z, z)) := by
              simp only [newItems]
              congr 1
              refine List.filter_congr (fun z hz => ?_)
              rw [List.map_append]
              simp only [List.map_cons, List.map_nil, List.mem_append, List.mem_cons,
                List.not_mem_nil, or_false]
              simp [hknr z hz]
            have hC : newItems (y :: rest) (acc.map Prod.fst) =
                ((k : J), y) :: (rest.filter (fun z => decide (nodeD z ∉
                  acc.map Prod.fst))).map (fun z => (nodeD z, z)) := by
              simp only [newItems]
              rw [List.filter_cons_of_pos (by simp [hkey, hmem])]
              simp [hkey]
            rw [hA, hB, hC]
            simp [List.append_assoc]

/-- C5: merging the `lights_report` list is keyed by the stable `node`
identifier — when base and patch items all carry a `node` key, with no
duplicate keys on either side, each base item whose key occurs in the
patch is replaced *in place* by that patch item, base items whose keys
the patch does not mention are kept unchanged with their relative order
preserved, and patch items with new keys are appended in patch order. -/
theorem c5_keyed_list_merge (b n : List J)
    (hbok : ∀ x ∈ b, (nodeOfItem x).isOk = true)
    (hnok : ∀ y ∈ n, (nodeOfItem y).isOk = true)
    (hbnd : (keysOf b).Nodup) (hnnd : (keysOf n).Nodup) :
    mergeJ ["print", "lights_report"] (J.arr b) (J.arr n) =
      Except.ok (J.arr (
        b.map (fun x => (n.find? (fun y => nodeD y = nodeD x)).getD x) ++
        n.filter (fun y => decide (nodeD y ∉ keysOf b)))) := by
  have hkeys : ((b.map (fun x => (nodeD x, x))).map Prod.fst) = keysOf b := by
    rw [List.map_map]
    rfl
  rw [mergeJ]
  unfold _custom_list_merge
  rw [if_pos rfl, upsertAll_base b [] hbok (by simp) hbnd, exceptOkBind]
  simp only [List.nil_append]
  rw [upsertAll_patch n (b.map (fun x => (nodeD x, x))) hnok hnnd
    (by rw [hkeys]; exact hbnd), exceptOkBind]
  congr 1
  congr 1
  rw [List.map_append, List.map_map]
  congr 1
  · rw [List.map_map]
    refine List.map_congr_left (fun x hx => ?_)
    show (substItem n (nodeD x, x)).2 = (n.find? (fun y => nodeD y = nodeD x)).getD x
    simp only [substItem]
    cases hf : n.find? (fun y => decide (nodeD y = nodeD x)) with
    | none => rfl
    | some z => rfl
  · rw [hkeys]
    simp only [newItems]
    rw [List.map_map]
    have h1 : ∀ z ∈ n.filter (fun z => decide (nodeD z ∉ keysOf b)),
        ((fun p : J × J => p.2) ∘ fun z => (nodeD z, z)) z = z := fun z _ => rfl
    rw [List.map_congr_left h1]
    exact List.map_id _

/-- C5 witness: a patch with one known key (replaced in place) and one
new key (appended); the untouched base item keeps its position. -/
theorem c5_keyed_list_merge_witness :
    mergeJ ["print", "lights_report"]
      (J.arr [J.obj [("node", J.str "A"), ("mode", J.str "on")],
              J.obj [("node", J.str "B"), ("mode", J.str "off")]])
      (J.arr [J.obj [("node", J.str "B"), ("mode", J.str "flashing")],
              J.obj [("node", J.str "C"), ("mode", J.str "on")]]) =
    Except.ok (J.arr
      [J.obj [("node", J.str "A"), ("mode", J.str "on")],
       J.obj [("node", J.str "B"), ("mode", J.str "flashing")],
       J.obj [("node", J.str "C"), ("mode", J.str "on")]]) := by
  have h := c5_keyed_list_merge
    [J.obj [("node", J.str "A"), ("mode", J.str "on")],
     J.obj [("node", J.str "B"), ("mode", J.str "off")]]
    [J.obj [("node", J.str "B"), ("mode", J.str "flashing")],
     J.obj [("node", J.str "C"), ("mode", J.str "on")]]
    (by decide) (by decide) (by decide) (by decide)
  rw [h]
  rfl

end Souzu

